import Mathlib

/-!
# delphesAnalyzer: object builders and event selections

A shallow embedding of `lhada2tnm/delphesAnalyzer/delphesAnalyzer.cc`.

Conventions of the embedding.

* A C++ `double` is an exact rational number (`ℚ`).  Rounding, infinities and
  NaN are not modelled, so `!(a < b)` and `a >= b` coincide.
* The global variables of the translation unit (external objects, internal
  objects, the event-level variable and the six selection counters) are the
  fields of `State`; every `operator()` is a function on `State`.
* `vector<TEParticle>` is `List TEParticle`; `clear()` followed by a loop of
  `push_back` is a left fold that appends to an initially empty list.
* A loop body that works on `TEParticle& p = coll[c]` writes through the
  reference, so such a loop also yields the updated `coll`.
* The helper functions of the headers that are not among the sources (`dR`,
  `dPhi`, `METoverSqrtSumET`) are the fields of the parameter
  `ExternalFunctions`.
-/

namespace Lhada

/-! ## Data model -/

/-- Modelled from the spec: the particle record `TEParticle`, whose header
`TEParticle.h` is absent from the sources.  The spec describes it as a mapping
from attribute name to floating-point value with a getter and a setter that
attaches or overwrites.  The mapping is total here: what an attribute that was
never written reads as is whatever the record holds under that name, so every
statement below holds for each possible content. -/
structure TEParticle where
  Value : String → ℚ

/-- The getter `p(varname)`. -/
def TEParticle.get (p : TEParticle) (varname : String) : ℚ :=
  p.Value varname

/-- The setter `p(varname, x)`: attaches or overwrites one attribute. -/
def TEParticle.set (p : TEParticle) (varname : String) (x : ℚ) : TEParticle :=
  ⟨fun k => if k = varname then x else p.Value k⟩

/-- The functions of `ATLASEXOT1704.0384_functions.h` used by the analyzer; the
wrappers `_dR`, `_dPhi` and `_METoverSqrtSumET` only forward to them. -/
structure ExternalFunctions where
  dR : ℚ → ℚ → ℚ → ℚ → ℚ
  dPhi : ℚ → ℚ → ℚ
  METoverSqrtSumET : TEParticle → TEParticle → ℚ

/-- The members `count` and `dcount` of a selection object. -/
structure Cut where
  count : ℚ
  dcount : ℚ

/-- The global variables of the analyzer.  The last six fields are the counters
of the objects `cut_preselection`, `cut_SRE2`, `cut_SRI1`, `cut_SRI2`,
`cut_SRI3` and `cut_SRE1`, named after their `name` members. -/
structure State where
  Delphes_scalarHT : TEParticle
  Delphes_Photon : List TEParticle
  Delphes_Muon : List TEParticle
  Delphes_Jet : List TEParticle
  Delphes_MissingET : TEParticle
  Delphes_Electron : List TEParticle
  scalarHT : TEParticle
  photons : List TEParticle
  muons : List TEParticle
  jets : List TEParticle
  MET : TEParticle
  electrons : List TEParticle
  tightphotons : List TEParticle
  cleanjets : List TEParticle
  cleanelectrons : List TEParticle
  jetsSR : List TEParticle
  cleanmuons : List TEParticle
  METoverSqrtSumET_ : ℚ
  preselection : Cut
  SRE2 : Cut
  SRI1 : Cut
  SRI2 : Cut
  SRI3 : Cut
  SRE1 : Cut

/-! ## Object definitions -/

/-- The builder `object_scalarHT_s::operator()`. -/
def object_scalarHT (s : State) : State :=
  { s with scalarHT := s.Delphes_scalarHT }

/-- The builder `object_photons_s::operator()`. -/
def object_photons (s : State) : State :=
  { s with photons := s.Delphes_Photon.foldl (fun out p =>
      if ¬ (p.get "pt" > 10) then out
      else if ¬ (p.get "|eta|" < 2.37) then out
      else out ++ [p]) [] }

/-- The builder `object_muons_s::operator()`. -/
def object_muons (s : State) : State :=
  { s with muons := s.Delphes_Muon.foldl (fun out p =>
      if ¬ (p.get "pt" > 6) then out
      else if ¬ (p.get "|eta|" < 2.7) then out
      else out ++ [p]) [] }

/-- The builder `object_jets_s::operator()`. -/
def object_jets (s : State) : State :=
  { s with jets := s.Delphes_Jet.foldl (fun out p =>
      if ¬ (p.get "pt" > 20) then out
      else if ¬ (p.get "|eta|" < 4.5) then out
      else out ++ [p]) [] }

/-- The builder `object_MET_s::operator()`. -/
def object_MET (s : State) : State :=
  { s with MET := s.Delphes_MissingET }

/-- The builder `object_electrons_s::operator()`. -/
def object_electrons (s : State) : State :=
  { s with electrons := s.Delphes_Electron.foldl (fun out p =>
      if ¬ (p.get "pt" > 7) then out
      else if ¬ (p.get "|eta|" < 2.47) then out
      else out ++ [p]) [] }

/-- The builder `object_tightphotons_s::operator()`. -/
def object_tightphotons (s : State) : State :=
  { s with tightphotons := s.photons.foldl (fun out p =>
      if ¬ (p.get "|eta|" < 1.37) then out
      else if ¬ (p.get "|eta|" > 1.52 ∧ p.get "|eta|" < 2.37) then out
      else out ++ [p]) [] }

/-- The inner loop of an overlap-removal builder, for the candidate `p` over the
reference collection: `for (n ...) { q = refs[n]; d = _dR(p("eta"), p("phi"),
q("eta"), q("phi")); p(name, d); if ( p(name) < cut ) { skip = true; break; } }`.
The result is the candidate as the loop leaves it and the flag `skip`.  The
three builders `cleanjets`, `cleanelectrons` and `cleanmuons` and the inner
loop of `jetsSR` differ only in the attribute name and the threshold. -/
def overlap_scan (F : ExternalFunctions) (name : String) (cut : ℚ) :
    TEParticle → List TEParticle → TEParticle × Bool
  | p, [] => (p, false)
  | p, q :: rest =>
    let d := F.dR (p.get "eta") (p.get "phi") (q.get "eta") (q.get "phi")
    let p₁ := p.set name d
    if p₁.get name < cut then (p₁, true) else overlap_scan F name cut p₁ rest

/-- The outer loop of an overlap-removal builder: every candidate is scanned
against the reference collection and pushed to the output unless `skip` is set.
The first component is the candidate collection after the loop (the body writes
the attribute through the reference `p`), the second is the output. -/
def overlap_removal (F : ExternalFunctions) (name : String) (cut : ℚ)
    (cands refs : List TEParticle) : List TEParticle × List TEParticle :=
  cands.foldl (fun acc p =>
    let r := overlap_scan F name cut p refs
    (acc.1 ++ [r.1], if r.2 then acc.2 else acc.2 ++ [r.1])) ([], [])

/-- The builder `object_cleanjets_s::operator()`. -/
def object_cleanjets (F : ExternalFunctions) (s : State) : State :=
  let r := overlap_removal F "drje" 0.2 s.jets s.electrons
  { s with jets := r.1, cleanjets := r.2 }

/-- The builder `object_cleanelectrons_s::operator()`. -/
def object_cleanelectrons (F : ExternalFunctions) (s : State) : State :=
  let r := overlap_removal F "drej" 0.4 s.electrons s.cleanjets
  { s with electrons := r.1, cleanelectrons := r.2 }

/-- The body of the loop of `object_jetsSR_s::operator()` for the candidate
`p`: the candidate as the body leaves it, and whether it is pushed to `jetsSR`
(false where the source has `continue`). -/
def jetsSR_body (F : ExternalFunctions) (photons : List TEParticle)
    (MET : TEParticle) (p : TEParticle) : TEParticle × Bool :=
  if ¬ (p.get "pt" > 30) then (p, false)
  else
    let r := overlap_scan F "drjp" 0.4 p photons
    if r.2 then (r.1, false)
    else
      let dphijmet := F.dPhi (r.1.get "phi") (MET.get "phi")
      let p₁ := r.1.set "dphijmet" dphijmet
      if p₁.get "dphijmet" < 0.4 then (p₁, false) else (p₁, true)

/-- The builder `object_jetsSR_s::operator()`.  The first component of the fold is
`cleanjets` after the loop (the body writes through the reference `p`), the
second is `jetsSR`. -/
def object_jetsSR (F : ExternalFunctions) (s : State) : State :=
  let r := s.cleanjets.foldl (fun acc p =>
    let b := jetsSR_body F s.photons s.MET p
    (acc.1 ++ [b.1], if b.2 then acc.2 ++ [b.1] else acc.2)) ([], [])
  { s with cleanjets := r.1, jetsSR := r.2 }

/-- The builder `object_cleanmuons_s::operator()`. -/
def object_cleanmuons (F : ExternalFunctions) (s : State) : State :=
  let r := overlap_removal F "drmuj" 0.4 s.muons s.cleanjets
  { s with muons := r.1, cleanmuons := r.2 }

/-! ## Selections -/

/-- The selection `cut_preselection_s::operator()(double weight)`: the returned value and the
globals after the call. -/
def cut_preselection (F : ExternalFunctions) (s : State) (weight : ℚ) :
    Bool × State :=
  match s.tightphotons with
  | [] => (false, s)
  | p0 :: _ =>
    if ¬ (p0.get "pt" > 150) then (false, s)
    else if ¬ (F.dPhi (p0.get "phi") (s.MET.get "phi") > 0.4) then (false, s)
    else if ¬ (s.METoverSqrtSumET_ > 8.5) then (false, s)
    else if ¬ (s.cleanmuons.length = 0) then (false, s)
    else if ¬ (s.cleanelectrons.length = 0) then (false, s)
    else (true, { s with preselection :=
      ⟨s.preselection.count + weight, s.preselection.dcount + weight * weight⟩ })

/-- The selection `cut_SRE2_s::operator()(double weight)`.  The nested `cut_preselection()`
is called without an argument, that is with the default `weight = 1`. -/
def cut_SRE2 (F : ExternalFunctions) (s : State) (weight : ℚ) : Bool × State :=
  let r := cut_preselection F s 1
  if ¬ (r.1 = true) then (false, r.2)
  else if ¬ (r.2.MET.get "pt" > 225 ∧ r.2.MET.get "pt" < 300) then (false, r.2)
  else (true, { r.2 with SRE2 :=
    ⟨r.2.SRE2.count + weight, r.2.SRE2.dcount + weight * weight⟩ })

/-- The selection `cut_SRI1_s::operator()(double weight)`. -/
def cut_SRI1 (F : ExternalFunctions) (s : State) (weight : ℚ) : Bool × State :=
  let r := cut_preselection F s 1
  if ¬ (r.1 = true) then (false, r.2)
  else if ¬ (r.2.MET.get "pt" > 150) then (false, r.2)
  else (true, { r.2 with SRI1 :=
    ⟨r.2.SRI1.count + weight, r.2.SRI1.dcount + weight * weight⟩ })

/-- The selection `cut_SRI2_s::operator()(double weight)`. -/
def cut_SRI2 (F : ExternalFunctions) (s : State) (weight : ℚ) : Bool × State :=
  let r := cut_preselection F s 1
  if ¬ (r.1 = true) then (false, r.2)
  else if ¬ (r.2.MET.get "pt" > 225) then (false, r.2)
  else (true, { r.2 with SRI2 :=
    ⟨r.2.SRI2.count + weight, r.2.SRI2.dcount + weight * weight⟩ })

/-- The selection `cut_SRI3_s::operator()(double weight)`. -/
def cut_SRI3 (F : ExternalFunctions) (s : State) (weight : ℚ) : Bool × State :=
  let r := cut_preselection F s 1
  if ¬ (r.1 = true) then (false, r.2)
  else if ¬ (r.2.MET.get "pt" > 300) then (false, r.2)
  else (true, { r.2 with SRI3 :=
    ⟨r.2.SRI3.count + weight, r.2.SRI3.dcount + weight * weight⟩ })

/-- The selection `cut_SRE1_s::operator()(double weight)`. -/
def cut_SRE1 (F : ExternalFunctions) (s : State) (weight : ℚ) : Bool × State :=
  let r := cut_preselection F s 1
  if ¬ (r.1 = true) then (false, r.2)
  else if ¬ (r.2.MET.get "pt" > 150 ∧ r.2.MET.get "pt" < 225) then (false, r.2)
  else (true, { r.2 with SRE1 :=
    ⟨r.2.SRE1.count + weight, r.2.SRE1.dcount + weight * weight⟩ })

/-! ## The event loop of `main` -/

/-- The block "apply event level selections" of `main`: the globals after each
of the six calls, in call order, starting with the globals before the first
call.  Every call uses the default `weight = 1`. -/
def selection_states (F : ExternalFunctions) (s : State) : List State :=
  let s₁ := (cut_preselection F s 1).2
  let s₂ := (cut_SRE2 F s₁ 1).2
  let s₃ := (cut_SRI1 F s₂ 1).2
  let s₄ := (cut_SRI2 F s₃ 1).2
  let s₅ := (cut_SRI3 F s₄ 1).2
  let s₆ := (cut_SRE1 F s₅ 1).2
  [s, s₁, s₂, s₃, s₄, s₅, s₆]

/-- The values returned by the six calls of the block "apply event level
selections", in call order: `cut_preselection`, `cut_SRE2`, `cut_SRI1`,
`cut_SRI2`, `cut_SRI3`, `cut_SRE1`. -/
def selection_results (F : ExternalFunctions) (s : State) : List Bool :=
  let r₁ := cut_preselection F s 1
  let r₂ := cut_SRE2 F r₁.2 1
  let r₃ := cut_SRI1 F r₂.2 1
  let r₄ := cut_SRI2 F r₃.2 1
  let r₅ := cut_SRI3 F r₄.2 1
  let r₆ := cut_SRE1 F r₅.2 1
  [r₁.1, r₂.1, r₃.1, r₄.1, r₅.1, r₆.1]

/-- The block "apply event level selections" of `main`: the globals after the
six calls. -/
def apply_selections (F : ExternalFunctions) (s : State) : State :=
  let s₁ := (cut_preselection F s 1).2
  let s₂ := (cut_SRE2 F s₁ 1).2
  let s₃ := (cut_SRI1 F s₂ 1).2
  let s₄ := (cut_SRI2 F s₃ 1).2
  let s₅ := (cut_SRI3 F s₄ 1).2
  (cut_SRE1 F s₅ 1).2

/-- What `DelphesAdapter` extracts from one entry of the event buffer: the six
external objects.  The adapter and the event buffer are outside the sources. -/
structure Event where
  Muon : List TEParticle
  MissingET : TEParticle
  Electron : List TEParticle
  Jet : List TEParticle
  scalarHT : TEParticle
  Photon : List TEParticle

/-- Modelled from the spec: the six `adapter(ev, ...)` calls of `main` ("get
external objects"), which populate the raw collections from the event; the
class `DelphesAdapter` is absent from the sources. -/
def get_external_objects (ev : Event) (s : State) : State :=
  { s with
    Delphes_Muon := ev.Muon
    Delphes_MissingET := ev.MissingET
    Delphes_Electron := ev.Electron
    Delphes_Jet := ev.Jet
    Delphes_scalarHT := ev.scalarHT
    Delphes_Photon := ev.Photon }

/-- The block "create internal objects" of `main`: the eleven builders in call
order. -/
def create_internal_objects (F : ExternalFunctions) (s : State) : State :=
  let s := object_scalarHT s
  let s := object_photons s
  let s := object_muons s
  let s := object_jets s
  let s := object_MET s
  let s := object_electrons s
  let s := object_tightphotons s
  let s := object_cleanjets F s
  let s := object_cleanelectrons F s
  let s := object_jetsSR F s
  object_cleanmuons F s

/-- The block "compute event level variables" of `main`. -/
def compute_event_level_variables (F : ExternalFunctions) (s : State) : State :=
  { s with METoverSqrtSumET_ := F.METoverSqrtSumET s.MET s.scalarHT }

/-- The body of the event loop of `main` for one entry. -/
def process_event (F : ExternalFunctions) (ev : Event) (s : State) : State :=
  apply_selections F
    (compute_event_level_variables F
      (create_internal_objects F (get_external_objects ev s)))

/-- The event loop of `main` over the entries of the event buffer. -/
def event_loop (F : ExternalFunctions) (evs : List Event) (s : State) : State :=
  evs.foldl (fun s ev => process_event F ev s) s

/-! ## The wrapper `_Meff` -/

/-- ROOT's `TLorentzVector`, in the coordinates read by `Pt()`, `Eta()`, `Phi()`
and `M()`.  ROOT is a library outside the repository. -/
structure TLorentzVector where
  Pt : ℚ
  Eta : ℚ
  Phi : ℚ
  M : ℚ

/-- The default-constructed `TLorentzVector`, the zero vector: this is what
`vector<TLorentzVector> jets_(jets.size())` is filled with. -/
def TLorentzVector.zero : TLorentzVector := ⟨0, 0, 0, 0⟩

/-- The iterator range `[v.begin() + i, v.begin() + j)` of a vector. -/
def iterator_range {α : Type} (v : List α) (i j : Nat) : List α :=
  (v.drop i).take (j - i)

/-- The algorithm `std::copy(first, last, d_first)`: the elements of the source
range overwrite the destination from its first element on. -/
def std_copy {α : Type} (src dst : List α) : List α :=
  src ++ dst.drop src.length

/-- The wrapper `_Meff(vector<TEParticle>& jets, TLorentzVector& MET)`.  The
function `Meff` of the absent header and the conversion `vec` of a `TEParticle`
to its `TLorentzVector` base are parameters.  The source copies the range
`jets.begin(), jets.begin()`. -/
def _Meff (Meff : List TLorentzVector → TLorentzVector → ℚ)
    (vec : TEParticle → TLorentzVector) (jets : List TEParticle)
    (MET : TLorentzVector) : ℚ :=
  let jets_ := List.replicate jets.length TLorentzVector.zero
  let jets_ := std_copy ((iterator_range jets 0 0).map vec) jets_
  Meff jets_ MET

/-- Modelled from the spec: the effective mass `Meff` of the absent header
`ATLASSUSY1605.03814_functions.h`, the scalar sum of the jets' transverse
momenta plus the missing-transverse-energy magnitude, an empty jet collection
contributing zero. -/
def Meff_of_spec (jets : List TLorentzVector) (MET : TLorentzVector) : ℚ :=
  (jets.map TLorentzVector.Pt).sum + MET.Pt

/-! ## Notions used in the statements -/

/-- The body of the event loop of `main` up to the selections: get external
objects, create internal objects, compute event level variables. -/
def before_selections (F : ExternalFunctions) (ev : Event) (s : State) : State :=
  compute_event_level_variables F (create_internal_objects F (get_external_objects ev s))

/-- The counter selected by `sel` is additive: each processed event adds to
its `count` and to its `dcount` an increment that is not negative and depends
only on that event. -/
def additive_counter (F : ExternalFunctions) (sel : State → Cut) : Prop :=
  ∃ inc : Event → ℚ × ℚ, ∀ (ev : Event) (s : State),
    0 ≤ (inc ev).1 ∧ 0 ≤ (inc ev).2
    ∧ (sel (process_event F ev s)).count = (sel s).count + (inc ev).1
    ∧ (sel (process_event F ev s)).dcount = (sel s).dcount + (inc ev).2


/-- The preselection condition as the specification words it: `tightphotons`
non-empty, leading tight photon `pt > 150`, `|dPhi(leading tight photon, MET)|
> 0.4`, `METoverSqrtSumET_ > 8.5`, `cleanmuons` empty and `cleanelectrons`
empty. -/
def preselection_condition (F : ExternalFunctions) (s : State) : Prop :=
  ∃ p0 rest, s.tightphotons = p0 :: rest
    ∧ p0.get "pt" > 150
    ∧ |F.dPhi (p0.get "phi") (s.MET.get "phi")| > 0.4
    ∧ s.METoverSqrtSumET_ > 8.5
    ∧ s.cleanmuons = []
    ∧ s.cleanelectrons = []

/-- The contract of a region predicate `cut` with counter `sel` and window
`window` on `MET("pt")`: it returns true exactly when the preselection
condition holds and `MET("pt")` lies in the window; when it returns true its
own counter receives `weight` and `weight * weight`, and when it returns false
its own counter is unchanged. -/
def region_contract (F : ExternalFunctions)
    (cut : ExternalFunctions → State → ℚ → Bool × State) (sel : State → Cut)
    (window : ℚ → Prop) : Prop :=
  ∀ (s : State) (weight : ℚ),
    ((cut F s weight).1 = true
        ↔ preselection_condition F s ∧ window (s.MET.get "pt"))
    ∧ ((cut F s weight).1 = true →
        (sel (cut F s weight).2).count = (sel s).count + weight
        ∧ (sel (cut F s weight).2).dcount = (sel s).dcount + weight * weight)
    ∧ ((cut F s weight).1 = false →
        (sel (cut F s weight).2).count = (sel s).count
        ∧ (sel (cut F s weight).2).dcount = (sel s).dcount)

/-- The number of steps of a run (a list of successive states) at which the
counter selected by `sel` changes. -/
def updates (sel : State → Cut) : List State → Nat
  | a :: b :: rest =>
    (if (sel a).count = (sel b).count ∧ (sel a).dcount = (sel b).dcount then 0 else 1)
      + updates sel (b :: rest)
  | _ => 0

/-! ## Sample inputs -/

/-- A record with the attributes `pt`, `eta`, `phi` and `|eta|`; every other
attribute reads as zero. -/
def particle (pt eta phi : ℚ) : TEParticle :=
  ⟨fun k => if k = "pt" then pt else if k = "eta" then eta
    else if k = "phi" then phi else if k = "|eta|" then |eta| else 0⟩

/-- A sample choice of the external functions, used to run the analyzer on
concrete inputs: `dR` is the sum of the distances in `eta` and in `phi`, `dPhi`
the distance in `phi`, and `METoverSqrtSumET` the quotient of the two `pt`. -/
def sample_functions : ExternalFunctions :=
  ⟨fun eta1 phi1 eta2 phi2 => |eta1 - eta2| + |phi1 - phi2|,
   fun phi1 phi2 => |phi1 - phi2|,
   fun met ht => met.get "pt" / ht.get "pt"⟩

/-- The globals before the first event: empty collections and counters at
zero. -/
def initial_state : State :=
  { Delphes_scalarHT := particle 0 0 0, Delphes_Photon := [], Delphes_Muon := [],
    Delphes_Jet := [], Delphes_MissingET := particle 0 0 0, Delphes_Electron := [],
    scalarHT := particle 0 0 0, photons := [], muons := [], jets := [],
    MET := particle 0 0 0, electrons := [], tightphotons := [], cleanjets := [],
    cleanelectrons := [], jetsSR := [], cleanmuons := [], METoverSqrtSumET_ := 0,
    preselection := ⟨0, 0⟩, SRE2 := ⟨0, 0⟩, SRI1 := ⟨0, 0⟩, SRI2 := ⟨0, 0⟩,
    SRI3 := ⟨0, 0⟩, SRE1 := ⟨0, 0⟩ }

/-- The globals of end-to-end scenario 2 before the selections: one tight
photon with `pt = 200` at `phi = 1`, `MET` with `pt = 260` at `phi = 0`,
`METoverSqrtSumET_ = 10`, no clean muons and no clean electrons. -/
def scenario2_state : State :=
  { initial_state with
    tightphotons := [particle 200 0 1]
    MET := particle 260 0 0
    METoverSqrtSumET_ := 10 }

/-- The globals of end-to-end scenario 3 before `cleanjets` is built: one jet
and one electron at the same `(eta, phi) = (1, 1)`. -/
def scenario3_state : State :=
  { initial_state with
    jets := [particle 50 1 1]
    electrons := [particle 30 1 1] }

/-- Sample globals before `jetsSR` is built: two clean jets with `pt = 50` and
`pt = 20` at `(eta, phi) = (0, 2)`, one photon at `(3, 0)` and `MET` at
`phi = 0`. -/
def jetsSR_sample_state : State :=
  { initial_state with
    cleanjets := [particle 50 0 2, particle 20 0 2]
    photons := [particle 40 3 0]
    MET := particle 100 0 0 }

/-- Sample globals before `cleanelectrons` and `cleanmuons` are built: one clean
jet at `(eta, phi) = (0, 0)`, electrons at `(0, 0)` and `(2, 2)`, one muon at
`(0, 0)`. -/
def leptons_sample_state : State :=
  { initial_state with
    cleanjets := [particle 50 0 0]
    electrons := [particle 30 0 0, particle 30 2 2]
    muons := [particle 10 0 0] }

/-- Sample globals with one photon in the barrel window, `|eta| = 1 < 1.37`. -/
def barrel_photon_state : State :=
  { initial_state with photons := [particle 50 1 0] }

/-- A sample event without photons: one jet, one electron, one muon. -/
def photonless_event : Event :=
  { Muon := [particle 10 0 0]
    MissingET := particle 260 0 0
    Electron := [particle 30 1 1]
    Jet := [particle 50 2 2]
    scalarHT := particle 100 0 0
    Photon := [] }

/-- A sample event with one photon in the barrel (`pt = 200`, `|eta| = 1`). -/
def photon_event : Event :=
  { Muon := []
    MissingET := particle 260 0 0
    Electron := []
    Jet := [particle 50 2 2]
    scalarHT := particle 100 0 0
    Photon := [particle 200 1 1] }

/-- A sample conversion of a record to its four-vector: `pt`, `eta` and `phi`
are read from the attributes, the mass is zero. -/
def sample_vec (p : TEParticle) : TLorentzVector :=
  ⟨p.get "pt", p.get "eta", p.get "phi", 0⟩

/-- Sample globals before `cleanjets` is built: two jets, of which the one at
`(0, 0)` lies on an electron and the one at `(2, 2)` is away from both
electrons. -/
def cleanjets_sample_state : State :=
  { initial_state with
    jets := [particle 50 0 0, particle 60 2 2]
    electrons := [particle 30 0 0, particle 30 1 0] }

/-! ## Helper lemmas on the loops -/

theorem foldl_push_eq_filter {α : Type} (c : α → Prop) [DecidablePred c]
    (l acc : List α) :
    l.foldl (fun out p => if c p then out ++ [p] else out) acc
      = acc ++ l.filter (fun p => decide (c p)) := by
  induction l generalizing acc with
  | nil => simp
  | cons a t ih =>
    by_cases h : c a
    · simp [List.foldl_cons, h, ih]
    · simp [List.foldl_cons, h, ih]

theorem foldl_two_guards {α : Type} (c₁ c₂ : α → Prop) [DecidablePred c₁]
    [DecidablePred c₂] (l : List α) :
    l.foldl (fun out p => if ¬ c₁ p then out else if ¬ c₂ p then out
        else out ++ [p]) []
      = l.filter (fun p => decide (c₁ p ∧ c₂ p)) := by
  have h : (fun (out : List α) p => if ¬ c₁ p then out else if ¬ c₂ p then out
        else out ++ [p]) = (fun out p => if c₁ p ∧ c₂ p then out ++ [p] else out) := by
    funext out p
    by_cases h₁ : c₁ p <;> by_cases h₂ : c₂ p <;> simp [h₁, h₂]
  rw [h, foldl_push_eq_filter]
  simp

/-- The setter changes no attribute other than the one it writes. -/
theorem get_set_other (p : TEParticle) (name k : String) (x : ℚ) (hk : k ≠ name) :
    (p.set name x).get k = p.get k := by
  simp [TEParticle.get, TEParticle.set, hk]

/-- The getter reads what the setter wrote. -/
theorem get_set_same (p : TEParticle) (name : String) (x : ℚ) :
    (p.set name x).get name = x := by
  simp [TEParticle.get, TEParticle.set]

/-- The inner loop changes no attribute other than the one it attaches. -/
theorem overlap_scan_keeps (F : ExternalFunctions) (name : String) (cut : ℚ)
    (refs : List TEParticle) (p : TEParticle) (k : String) (hk : k ≠ name) :
    (overlap_scan F name cut p refs).1.get k = p.get k := by
  induction refs generalizing p with
  | nil => rfl
  | cons q rest ih =>
    simp only [overlap_scan]
    split_ifs
    · exact get_set_other p name k _ hk
    · rw [ih, get_set_other p name k _ hk]

/-- The inner loop sets `skip` exactly when some reference record is closer
than the threshold. -/
theorem overlap_scan_skip_iff (F : ExternalFunctions) (name : String) (cut : ℚ)
    (heta : "eta" ≠ name) (hphi : "phi" ≠ name)
    (refs : List TEParticle) (p : TEParticle) :
    (overlap_scan F name cut p refs).2 = true
      ↔ ∃ q ∈ refs, F.dR (p.get "eta") (p.get "phi") (q.get "eta") (q.get "phi") < cut := by
  induction refs generalizing p with
  | nil => simp [overlap_scan]
  | cons q rest ih =>
    simp only [overlap_scan, get_set_same, List.mem_cons, exists_eq_or_imp]
    split_ifs with hlt
    · simp [hlt]
    · rw [ih, get_set_other p name "eta" _ heta, get_set_other p name "phi" _ hphi]
      simp [hlt]

/-- The outer loop of an overlap removal in closed form. -/
theorem overlap_removal_eq (F : ExternalFunctions) (name : String) (cut : ℚ)
    (cands refs : List TEParticle) :
    overlap_removal F name cut cands refs
      = (cands.map (fun p => (overlap_scan F name cut p refs).1),
         (cands.filter (fun p => !(overlap_scan F name cut p refs).2)).map
            (fun p => (overlap_scan F name cut p refs).1)) := by
  have key : ∀ (l : List TEParticle) (acc : List TEParticle × List TEParticle),
      l.foldl (fun acc p =>
        let r := overlap_scan F name cut p refs
        (acc.1 ++ [r.1], if r.2 then acc.2 else acc.2 ++ [r.1])) acc
      = (acc.1 ++ l.map (fun p => (overlap_scan F name cut p refs).1),
         acc.2 ++ (l.filter (fun p => !(overlap_scan F name cut p refs).2)).map
            (fun p => (overlap_scan F name cut p refs).1)) := by
    intro l
    induction l with
    | nil => intro acc; simp
    | cons a t ih =>
      intro acc
      rw [List.foldl_cons, ih]
      by_cases h : (overlap_scan F name cut a refs).2 = true
      · simp [h]
      · simp [h]
  simpa [overlap_removal] using key cands ([], [])

/-- A candidate is pushed exactly when every reference record is at least the
threshold away. -/
theorem overlap_scan_pass_eq (F : ExternalFunctions) (name : String) (cut : ℚ)
    (heta : "eta" ≠ name) (hphi : "phi" ≠ name)
    (refs : List TEParticle) (p : TEParticle) :
    (!(overlap_scan F name cut p refs).2)
      = decide (∀ q ∈ refs,
          F.dR (p.get "eta") (p.get "phi") (q.get "eta") (q.get "phi") ≥ cut) := by
  rw [Bool.eq_iff_iff]
  simp only [Bool.not_eq_true', decide_eq_true_eq, ge_iff_le]
  rw [← Bool.not_eq_true, overlap_scan_skip_iff F name cut heta hphi]
  push_neg
  rfl

/-- The contract of the outer loop of an overlap removal: the candidates keep
every attribute but the attached one, and the output is, in order, the
candidates that are at least the threshold away from every reference record. -/
theorem overlap_removal_contract (F : ExternalFunctions) (name : String) (cut : ℚ)
    (heta : "eta" ≠ name) (hphi : "phi" ≠ name) (cands refs : List TEParticle) :
    List.Forall₂ (fun p p₁ : TEParticle => ∀ k, k ≠ name → p₁.get k = p.get k)
        cands (overlap_removal F name cut cands refs).1
    ∧ List.Forall₂ (fun p p₁ : TEParticle => ∀ k, k ≠ name → p₁.get k = p.get k)
        (cands.filter (fun p => decide (∀ q ∈ refs,
          F.dR (p.get "eta") (p.get "phi") (q.get "eta") (q.get "phi") ≥ cut)))
        (overlap_removal F name cut cands refs).2
    ∧ (overlap_removal F name cut cands refs).2
        = (overlap_removal F name cut cands refs).1.filter (fun p => decide (∀ q ∈ refs,
          F.dR (p.get "eta") (p.get "phi") (q.get "eta") (q.get "phi") ≥ cut)) := by
  rw [overlap_removal_eq]
  have hfilter : (fun p => !(overlap_scan F name cut p refs).2)
      = (fun p => decide (∀ q ∈ refs,
          F.dR (p.get "eta") (p.get "phi") (q.get "eta") (q.get "phi") ≥ cut)) :=
    funext (overlap_scan_pass_eq F name cut heta hphi refs)
  have hrel : ∀ l : List TEParticle,
      List.Forall₂ (fun p p₁ : TEParticle => ∀ k, k ≠ name → p₁.get k = p.get k)
        l (l.map (fun p => (overlap_scan F name cut p refs).1)) := by
    intro l
    rw [List.forall₂_map_right_iff, List.forall₂_same]
    intro x _ k hk
    exact overlap_scan_keeps F name cut refs x k hk
  refine ⟨hrel _, ?_, ?_⟩
  · rw [← hfilter]
    exact hrel _
  · simp only [List.filter_map]
    congr 1
    apply List.filter_congr
    intro x _
    simp only [Function.comp]
    rw [overlap_scan_keeps F name cut refs x "eta" heta,
      overlap_scan_keeps F name cut refs x "phi" hphi]
    exact overlap_scan_pass_eq F name cut heta hphi refs x

/-- The loop of `jetsSR` in closed form. -/
theorem jetsSR_loop_eq (F : ExternalFunctions) (photons : List TEParticle)
    (MET : TEParticle) (cands : List TEParticle) :
    cands.foldl (fun acc p =>
        let b := jetsSR_body F photons MET p
        (acc.1 ++ [b.1], if b.2 then acc.2 ++ [b.1] else acc.2)) ([], [])
      = (cands.map (fun p => (jetsSR_body F photons MET p).1),
         (cands.filter (fun p => (jetsSR_body F photons MET p).2)).map
            (fun p => (jetsSR_body F photons MET p).1)) := by
  have key : ∀ (l : List TEParticle) (acc : List TEParticle × List TEParticle),
      l.foldl (fun acc p =>
        let b := jetsSR_body F photons MET p
        (acc.1 ++ [b.1], if b.2 then acc.2 ++ [b.1] else acc.2)) acc
      = (acc.1 ++ l.map (fun p => (jetsSR_body F photons MET p).1),
         acc.2 ++ (l.filter (fun p => (jetsSR_body F photons MET p).2)).map
            (fun p => (jetsSR_body F photons MET p).1)) := by
    intro l
    induction l with
    | nil => intro acc; simp
    | cons a t ih =>
      intro acc
      rw [List.foldl_cons, ih]
      by_cases h : (jetsSR_body F photons MET a).2 = true
      · simp [h]
      · simp [h]
  simpa using key cands ([], [])

/-- The body of the loop of `jetsSR` changes no attribute other than `drjp` and
`dphijmet`. -/
theorem jetsSR_body_keeps (F : ExternalFunctions) (photons : List TEParticle)
    (MET : TEParticle) (p : TEParticle) (k : String)
    (h₁ : k ≠ "drjp") (h₂ : k ≠ "dphijmet") :
    (jetsSR_body F photons MET p).1.get k = p.get k := by
  simp only [jetsSR_body]
  split_ifs
  · exact overlap_scan_keeps F "drjp" 0.4 photons p k h₁
  · simp only []
    rw [get_set_other _ _ _ _ h₂]
    exact overlap_scan_keeps F "drjp" 0.4 photons p k h₁
  · simp only []
    rw [get_set_other _ _ _ _ h₂]
    exact overlap_scan_keeps F "drjp" 0.4 photons p k h₁
  · rfl

/-- The body of the loop of `jetsSR` pushes the candidate exactly when the three
conditions hold, for a `dPhi` without negative values. -/
theorem jetsSR_body_push_eq (F : ExternalFunctions) (hdPhi : ∀ a b, 0 ≤ F.dPhi a b)
    (photons : List TEParticle) (MET : TEParticle) (p : TEParticle) :
    (jetsSR_body F photons MET p).2
      = decide (p.get "pt" > 30
          ∧ (∀ q ∈ photons,
              F.dR (p.get "eta") (p.get "phi") (q.get "eta") (q.get "phi") ≥ 0.4)
          ∧ |F.dPhi (p.get "phi") (MET.get "phi")| ≥ 0.4) := by
  have hs := overlap_scan_pass_eq F "drjp" 0.4 (by decide) (by decide) photons p
  have hphi := overlap_scan_keeps F "drjp" 0.4 photons p "phi" (by decide)
  rw [Bool.eq_iff_iff]
  simp only [decide_eq_true_eq, abs_of_nonneg (hdPhi _ _)]
  rw [Bool.eq_iff_iff] at hs
  simp only [Bool.not_eq_true', decide_eq_true_eq] at hs
  simp only [jetsSR_body]
  split_ifs with h₁ h₂ h₃
  · have : ¬ ((overlap_scan F "drjp" 0.4 p photons).2 = false) := by simp [h₂]
    rw [hs] at this
    simp [this]
  · rw [get_set_same, hphi] at h₃
    simp [not_le.mpr h₃]
  · rw [get_set_same, hphi] at h₃
    have h₂' : (overlap_scan F "drjp" 0.4 p photons).2 = false := by simpa using h₂
    rw [hs] at h₂'
    simp only [true_iff]
    exact ⟨h₁, h₂', not_lt.mp h₃⟩
  · simp [h₁]

/-- The two rejecting tests of the `tightphotons` loop exclude each other, so
its `push_back` is never reached. -/
theorem object_tightphotons_nil (s : State) : (object_tightphotons s).tightphotons = [] := by
  have key : ∀ (l acc : List TEParticle),
      l.foldl (fun out p =>
        if ¬ (p.get "|eta|" < 1.37) then out
        else if ¬ (p.get "|eta|" > 1.52 ∧ p.get "|eta|" < 2.37) then out
        else out ++ [p]) acc = acc := by
    intro l
    induction l with
    | nil => intro acc; rfl
    | cons a t ih =>
      intro acc
      rw [List.foldl_cons, ih]
      split_ifs with h₁ h₂
      · exfalso
        have h₃ : (1.37 : ℚ) < 1.52 := by norm_num
        linarith [h₂.1]
      · rfl
      · rfl
  exact key s.photons []

/-- The globals after a call of `cut_preselection` that returns true. -/
theorem cut_preselection_state (F : ExternalFunctions) (s : State) (w : ℚ) :
    (cut_preselection F s w).2
      = if (cut_preselection F s w).1 = true then
          { s with preselection :=
            ⟨s.preselection.count + w, s.preselection.dcount + w * w⟩ }
        else s := by
  unfold cut_preselection
  cases s.tightphotons with
  | nil => simp
  | cons p0 rest =>
    simp only []
    split_ifs <;> simp_all

/-- The value returned by `cut_preselection`, for a `dPhi` without negative
values. -/
theorem cut_preselection_true_iff (F : ExternalFunctions)
    (hdPhi : ∀ a b, 0 ≤ F.dPhi a b) (s : State) (w : ℚ) :
    (cut_preselection F s w).1 = true ↔ preselection_condition F s := by
  unfold cut_preselection preselection_condition
  cases h : s.tightphotons with
  | nil => simp
  | cons p0 rest =>
    simp only [List.cons.injEq, abs_of_nonneg (hdPhi _ _)]
    constructor
    · intro hr
      refine ⟨p0, rest, ⟨rfl, rfl⟩, ?_⟩
      split_ifs at hr
      simp_all
    · rintro ⟨q0, r, ⟨rfl, rfl⟩, h1, h2, h3, h4, h5⟩
      simp [h1, h2, h3, h4, h5]

/-- A call of `cut_preselection` changes at most the counter `preselection`. -/
theorem cut_preselection_frame (F : ExternalFunctions) (s : State) (w : ℚ) :
    ∃ c, (cut_preselection F s w).2 = { s with preselection := c } := by
  rw [cut_preselection_state]
  split_ifs
  · exact ⟨_, rfl⟩
  · exact ⟨s.preselection, rfl⟩

/-- The shape shared by the five region predicates: the nested
`cut_preselection()`, then a test of `MET("pt")`, then the two additions to the
counter written by `put`. -/
theorem region_contract_of_shape (F : ExternalFunctions)
    (hdPhi : ∀ a b, 0 ≤ F.dPhi a b)
    (cut : ExternalFunctions → State → ℚ → Bool × State) (sel : State → Cut)
    (put : State → Cut → State) (window : ℚ → Prop) [DecidablePred window]
    (hsel : ∀ s c, sel (put s c) = c)
    (hpre : ∀ s c, sel { s with preselection := c } = sel s)
    (hcut : ∀ s w, cut F s w =
      if ¬ ((cut_preselection F s 1).1 = true) then (false, (cut_preselection F s 1).2)
      else if ¬ window ((cut_preselection F s 1).2.MET.get "pt") then
        (false, (cut_preselection F s 1).2)
      else (true, put (cut_preselection F s 1).2
        ⟨(sel (cut_preselection F s 1).2).count + w,
         (sel (cut_preselection F s 1).2).dcount + w * w⟩)) :
    region_contract F cut sel window := by
  intro s w
  obtain ⟨c, hc⟩ := cut_preselection_frame F s 1
  have hi := cut_preselection_true_iff F hdPhi s 1
  have hMET : (cut_preselection F s 1).2.MET = s.MET := by rw [hc]
  have hsel₁ : sel (cut_preselection F s 1).2 = sel s := by rw [hc, hpre]
  rw [hcut, hMET, hsel₁]
  by_cases hb : (cut_preselection F s 1).1 = true
  · have hcond := hi.mp hb
    by_cases hw : window (s.MET.get "pt")
    · simp [hb, hw, hcond, hsel]
    · simp [hb, hw, hsel₁]
  · have hcond : ¬ preselection_condition F s := fun h => hb (hi.mpr h)
    simp [hb, hcond, hsel₁]

/-- The result of `cut_preselection` when the preselection condition holds. -/
theorem cut_preselection_pass (F : ExternalFunctions) (hdPhi : ∀ a b, 0 ≤ F.dPhi a b)
    (s : State) (w : ℚ) (h : preselection_condition F s) :
    cut_preselection F s w = (true, { s with preselection :=
      ⟨s.preselection.count + w, s.preselection.dcount + w * w⟩ }) := by
  have hb := (cut_preselection_true_iff F hdPhi s w).mpr h
  have hs := cut_preselection_state F s w
  rw [if_pos hb] at hs
  exact Prod.ext hb hs

/-- The result of `cut_preselection` when the preselection condition fails. -/
theorem cut_preselection_fail (F : ExternalFunctions) (hdPhi : ∀ a b, 0 ≤ F.dPhi a b)
    (s : State) (w : ℚ) (h : ¬ preselection_condition F s) :
    cut_preselection F s w = (false, s) := by
  have hb : ¬ (cut_preselection F s w).1 = true :=
    fun hb => h ((cut_preselection_true_iff F hdPhi s w).mp hb)
  have hs := cut_preselection_state F s w
  rw [if_neg hb] at hs
  exact Prod.ext (by simpa using hb) hs

/-- What a call of `cut_preselection` leaves untouched. -/
theorem cut_preselection_keeps (F : ExternalFunctions) (s : State) (w : ℚ) :
    (cut_preselection F s w).2.tightphotons = s.tightphotons
    ∧ (cut_preselection F s w).2.MET = s.MET
    ∧ (cut_preselection F s w).2.METoverSqrtSumET_ = s.METoverSqrtSumET_
    ∧ (cut_preselection F s w).2.cleanmuons = s.cleanmuons
    ∧ (cut_preselection F s w).2.cleanelectrons = s.cleanelectrons
    ∧ (cut_preselection F s w).2.SRE2 = s.SRE2
    ∧ (cut_preselection F s w).2.SRI1 = s.SRI1
    ∧ (cut_preselection F s w).2.SRI2 = s.SRI2
    ∧ (cut_preselection F s w).2.SRI3 = s.SRI3
    ∧ (cut_preselection F s w).2.SRE1 = s.SRE1 := by
  obtain ⟨c, hc⟩ := cut_preselection_frame F s w
  rw [hc]
  exact ⟨rfl, rfl, rfl, rfl, rfl, rfl, rfl, rfl, rfl, rfl⟩

/-- The preselection condition after a call of `cut_preselection`. -/
theorem cut_preselection_condition (F : ExternalFunctions) (s : State) (w : ℚ) :
    preselection_condition F (cut_preselection F s w).2 ↔ preselection_condition F s := by
  obtain ⟨c, hc⟩ := cut_preselection_frame F s w
  rw [hc]
  exact Iff.rfl

/-- A call of `cut_SRE2` changes at most the counters `preselection` and `SRE2`. -/
theorem cut_SRE2_frame (F : ExternalFunctions) (s : State) (w : ℚ) :
    ∃ c₁ c₂, (cut_SRE2 F s w).2 = { s with preselection := c₁, SRE2 := c₂ } := by
  obtain ⟨c, hc⟩ := cut_preselection_frame F s 1
  unfold cut_SRE2
  simp only [hc]
  split_ifs
  all_goals first
    | exact ⟨c, s.SRE2, rfl⟩
    | exact ⟨c, _, rfl⟩

/-- What a call of `cut_SRE2` leaves untouched. -/
theorem cut_SRE2_keeps (F : ExternalFunctions) (s : State) (w : ℚ) :
    (cut_SRE2 F s w).2.tightphotons = s.tightphotons
    ∧ (cut_SRE2 F s w).2.MET = s.MET
    ∧ (cut_SRE2 F s w).2.METoverSqrtSumET_ = s.METoverSqrtSumET_
    ∧ (cut_SRE2 F s w).2.cleanmuons = s.cleanmuons
    ∧ (cut_SRE2 F s w).2.cleanelectrons = s.cleanelectrons
    ∧ (cut_SRE2 F s w).2.SRI1 = s.SRI1
    ∧ (cut_SRE2 F s w).2.SRI2 = s.SRI2
    ∧ (cut_SRE2 F s w).2.SRI3 = s.SRI3
    ∧ (cut_SRE2 F s w).2.SRE1 = s.SRE1 := by
  obtain ⟨c₁, c₂, hc⟩ := cut_SRE2_frame F s w
  rw [hc]
  exact ⟨rfl, rfl, rfl, rfl, rfl, rfl, rfl, rfl, rfl⟩

/-- The preselection condition after a call of `cut_SRE2`. -/
theorem cut_SRE2_condition (F : ExternalFunctions) (s : State) (w : ℚ) :
    preselection_condition F (cut_SRE2 F s w).2 ↔ preselection_condition F s := by
  obtain ⟨c₁, c₂, hc⟩ := cut_SRE2_frame F s w
  rw [hc]
  exact Iff.rfl

/-- The result of `cut_SRE2` when the preselection condition fails. -/
theorem cut_SRE2_fail (F : ExternalFunctions) (hdPhi : ∀ a b, 0 ≤ F.dPhi a b)
    (s : State) (w : ℚ) (h : ¬ preselection_condition F s) :
    cut_SRE2 F s w = (false, s) := by
  simp [cut_SRE2, cut_preselection_fail F hdPhi s 1 h]

/-- The result of `cut_SRE2` when the preselection condition holds. -/
theorem cut_SRE2_pass (F : ExternalFunctions) (hdPhi : ∀ a b, 0 ≤ F.dPhi a b)
    (s : State) (w : ℚ) (h : preselection_condition F s) :
    cut_SRE2 F s w = (decide (s.MET.get "pt" > 225 ∧ s.MET.get "pt" < 300),
      { s with
        preselection := ⟨s.preselection.count + 1, s.preselection.dcount + 1⟩
        SRE2 := if s.MET.get "pt" > 225 ∧ s.MET.get "pt" < 300 then
          ⟨s.SRE2.count + w, s.SRE2.dcount + w * w⟩ else s.SRE2 }) := by
  simp only [cut_SRE2, cut_preselection_pass F hdPhi s 1 h]
  by_cases hw : s.MET.get "pt" > 225 ∧ s.MET.get "pt" < 300
  · simp [hw]
  · simp [hw]

/-- A call of `cut_SRI1` changes at most the counters `preselection` and `SRI1`. -/
theorem cut_SRI1_frame (F : ExternalFunctions) (s : State) (w : ℚ) :
    ∃ c₁ c₂, (cut_SRI1 F s w).2 = { s with preselection := c₁, SRI1 := c₂ } := by
  obtain ⟨c, hc⟩ := cut_preselection_frame F s 1
  unfold cut_SRI1
  simp only [hc]
  split_ifs
  all_goals first
    | exact ⟨c, s.SRI1, rfl⟩
    | exact ⟨c, _, rfl⟩

/-- What a call of `cut_SRI1` leaves untouched. -/
theorem cut_SRI1_keeps (F : ExternalFunctions) (s : State) (w : ℚ) :
    (cut_SRI1 F s w).2.tightphotons = s.tightphotons
    ∧ (cut_SRI1 F s w).2.MET = s.MET
    ∧ (cut_SRI1 F s w).2.METoverSqrtSumET_ = s.METoverSqrtSumET_
    ∧ (cut_SRI1 F s w).2.cleanmuons = s.cleanmuons
    ∧ (cut_SRI1 F s w).2.cleanelectrons = s.cleanelectrons
    ∧ (cut_SRI1 F s w).2.SRE2 = s.SRE2
    ∧ (cut_SRI1 F s w).2.SRI2 = s.SRI2
    ∧ (cut_SRI1 F s w).2.SRI3 = s.SRI3
    ∧ (cut_SRI1 F s w).2.SRE1 = s.SRE1 := by
  obtain ⟨c₁, c₂, hc⟩ := cut_SRI1_frame F s w
  rw [hc]
  exact ⟨rfl, rfl, rfl, rfl, rfl, rfl, rfl, rfl, rfl⟩

/-- The preselection condition after a call of `cut_SRI1`. -/
theorem cut_SRI1_condition (F : ExternalFunctions) (s : State) (w : ℚ) :
    preselection_condition F (cut_SRI1 F s w).2 ↔ preselection_condition F s := by
  obtain ⟨c₁, c₂, hc⟩ := cut_SRI1_frame F s w
  rw [hc]
  exact Iff.rfl

/-- The result of `cut_SRI1` when the preselection condition fails. -/
theorem cut_SRI1_fail (F : ExternalFunctions) (hdPhi : ∀ a b, 0 ≤ F.dPhi a b)
    (s : State) (w : ℚ) (h : ¬ preselection_condition F s) :
    cut_SRI1 F s w = (false, s) := by
  simp [cut_SRI1, cut_preselection_fail F hdPhi s 1 h]

/-- The result of `cut_SRI1` when the preselection condition holds. -/
theorem cut_SRI1_pass (F : ExternalFunctions) (hdPhi : ∀ a b, 0 ≤ F.dPhi a b)
    (s : State) (w : ℚ) (h : preselection_condition F s) :
    cut_SRI1 F s w = (decide (s.MET.get "pt" > 150),
      { s with
        preselection := ⟨s.preselection.count + 1, s.preselection.dcount + 1⟩
        SRI1 := if s.MET.get "pt" > 150 then
          ⟨s.SRI1.count + w, s.SRI1.dcount + w * w⟩ else s.SRI1 }) := by
  simp only [cut_SRI1, cut_preselection_pass F hdPhi s 1 h]
  by_cases hw : s.MET.get "pt" > 150
  · simp [hw]
  · simp [hw]

/-- A call of `cut_SRI2` changes at most the counters `preselection` and `SRI2`. -/
theorem cut_SRI2_frame (F : ExternalFunctions) (s : State) (w : ℚ) :
    ∃ c₁ c₂, (cut_SRI2 F s w).2 = { s with preselection := c₁, SRI2 := c₂ } := by
  obtain ⟨c, hc⟩ := cut_preselection_frame F s 1
  unfold cut_SRI2
  simp only [hc]
  split_ifs
  all_goals first
    | exact ⟨c, s.SRI2, rfl⟩
    | exact ⟨c, _, rfl⟩

/-- What a call of `cut_SRI2` leaves untouched. -/
theorem cut_SRI2_keeps (F : ExternalFunctions) (s : State) (w : ℚ) :
    (cut_SRI2 F s w).2.tightphotons = s.tightphotons
    ∧ (cut_SRI2 F s w).2.MET = s.MET
    ∧ (cut_SRI2 F s w).2.METoverSqrtSumET_ = s.METoverSqrtSumET_
    ∧ (cut_SRI2 F s w).2.cleanmuons = s.cleanmuons
    ∧ (cut_SRI2 F s w).2.cleanelectrons = s.cleanelectrons
    ∧ (cut_SRI2 F s w).2.SRE2 = s.SRE2
    ∧ (cut_SRI2 F s w).2.SRI1 = s.SRI1
    ∧ (cut_SRI2 F s w).2.SRI3 = s.SRI3
    ∧ (cut_SRI2 F s w).2.SRE1 = s.SRE1 := by
  obtain ⟨c₁, c₂, hc⟩ := cut_SRI2_frame F s w
  rw [hc]
  exact ⟨rfl, rfl, rfl, rfl, rfl, rfl, rfl, rfl, rfl⟩

/-- The preselection condition after a call of `cut_SRI2`. -/
theorem cut_SRI2_condition (F : ExternalFunctions) (s : State) (w : ℚ) :
    preselection_condition F (cut_SRI2 F s w).2 ↔ preselection_condition F s := by
  obtain ⟨c₁, c₂, hc⟩ := cut_SRI2_frame F s w
  rw [hc]
  exact Iff.rfl

/-- The result of `cut_SRI2` when the preselection condition fails. -/
theorem cut_SRI2_fail (F : ExternalFunctions) (hdPhi : ∀ a b, 0 ≤ F.dPhi a b)
    (s : State) (w : ℚ) (h : ¬ preselection_condition F s) :
    cut_SRI2 F s w = (false, s) := by
  simp [cut_SRI2, cut_preselection_fail F hdPhi s 1 h]

/-- The result of `cut_SRI2` when the preselection condition holds. -/
theorem cut_SRI2_pass (F : ExternalFunctions) (hdPhi : ∀ a b, 0 ≤ F.dPhi a b)
    (s : State) (w : ℚ) (h : preselection_condition F s) :
    cut_SRI2 F s w = (decide (s.MET.get "pt" > 225),
      { s with
        preselection := ⟨s.preselection.count + 1, s.preselection.dcount + 1⟩
        SRI2 := if s.MET.get "pt" > 225 then
          ⟨s.SRI2.count + w, s.SRI2.dcount + w * w⟩ else s.SRI2 }) := by
  simp only [cut_SRI2, cut_preselection_pass F hdPhi s 1 h]
  by_cases hw : s.MET.get "pt" > 225
  · simp [hw]
  · simp [hw]

/-- A call of `cut_SRI3` changes at most the counters `preselection` and `SRI3`. -/
theorem cut_SRI3_frame (F : ExternalFunctions) (s : State) (w : ℚ) :
    ∃ c₁ c₂, (cut_SRI3 F s w).2 = { s with preselection := c₁, SRI3 := c₂ } := by
  obtain ⟨c, hc⟩ := cut_preselection_frame F s 1
  unfold cut_SRI3
  simp only [hc]
  split_ifs
  all_goals first
    | exact ⟨c, s.SRI3, rfl⟩
    | exact ⟨c, _, rfl⟩

/-- What a call of `cut_SRI3` leaves untouched. -/
theorem cut_SRI3_keeps (F : ExternalFunctions) (s : State) (w : ℚ) :
    (cut_SRI3 F s w).2.tightphotons = s.tightphotons
    ∧ (cut_SRI3 F s w).2.MET = s.MET
    ∧ (cut_SRI3 F s w).2.METoverSqrtSumET_ = s.METoverSqrtSumET_
    ∧ (cut_SRI3 F s w).2.cleanmuons = s.cleanmuons
    ∧ (cut_SRI3 F s w).2.cleanelectrons = s.cleanelectrons
    ∧ (cut_SRI3 F s w).2.SRE2 = s.SRE2
    ∧ (cut_SRI3 F s w).2.SRI1 = s.SRI1
    ∧ (cut_SRI3 F s w).2.SRI2 = s.SRI2
    ∧ (cut_SRI3 F s w).2.SRE1 = s.SRE1 := by
  obtain ⟨c₁, c₂, hc⟩ := cut_SRI3_frame F s w
  rw [hc]
  exact ⟨rfl, rfl, rfl, rfl, rfl, rfl, rfl, rfl, rfl⟩

/-- The preselection condition after a call of `cut_SRI3`. -/
theorem cut_SRI3_condition (F : ExternalFunctions) (s : State) (w : ℚ) :
    preselection_condition F (cut_SRI3 F s w).2 ↔ preselection_condition F s := by
  obtain ⟨c₁, c₂, hc⟩ := cut_SRI3_frame F s w
  rw [hc]
  exact Iff.rfl

/-- The result of `cut_SRI3` when the preselection condition fails. -/
theorem cut_SRI3_fail (F : ExternalFunctions) (hdPhi : ∀ a b, 0 ≤ F.dPhi a b)
    (s : State) (w : ℚ) (h : ¬ preselection_condition F s) :
    cut_SRI3 F s w = (false, s) := by
  simp [cut_SRI3, cut_preselection_fail F hdPhi s 1 h]

/-- The result of `cut_SRI3` when the preselection condition holds. -/
theorem cut_SRI3_pass (F : ExternalFunctions) (hdPhi : ∀ a b, 0 ≤ F.dPhi a b)
    (s : State) (w : ℚ) (h : preselection_condition F s) :
    cut_SRI3 F s w = (decide (s.MET.get "pt" > 300),
      { s with
        preselection := ⟨s.preselection.count + 1, s.preselection.dcount + 1⟩
        SRI3 := if s.MET.get "pt" > 300 then
          ⟨s.SRI3.count + w, s.SRI3.dcount + w * w⟩ else s.SRI3 }) := by
  simp only [cut_SRI3, cut_preselection_pass F hdPhi s 1 h]
  by_cases hw : s.MET.get "pt" > 300
  · simp [hw]
  · simp [hw]

/-- A call of `cut_SRE1` changes at most the counters `preselection` and `SRE1`. -/
theorem cut_SRE1_frame (F : ExternalFunctions) (s : State) (w : ℚ) :
    ∃ c₁ c₂, (cut_SRE1 F s w).2 = { s with preselection := c₁, SRE1 := c₂ } := by
  obtain ⟨c, hc⟩ := cut_preselection_frame F s 1
  unfold cut_SRE1
  simp only [hc]
  split_ifs
  all_goals first
    | exact ⟨c, s.SRE1, rfl⟩
    | exact ⟨c, _, rfl⟩

/-- What a call of `cut_SRE1` leaves untouched. -/
theorem cut_SRE1_keeps (F : ExternalFunctions) (s : State) (w : ℚ) :
    (cut_SRE1 F s w).2.tightphotons = s.tightphotons
    ∧ (cut_SRE1 F s w).2.MET = s.MET
    ∧ (cut_SRE1 F s w).2.METoverSqrtSumET_ = s.METoverSqrtSumET_
    ∧ (cut_SRE1 F s w).2.cleanmuons = s.cleanmuons
    ∧ (cut_SRE1 F s w).2.cleanelectrons = s.cleanelectrons
    ∧ (cut_SRE1 F s w).2.SRE2 = s.SRE2
    ∧ (cut_SRE1 F s w).2.SRI1 = s.SRI1
    ∧ (cut_SRE1 F s w).2.SRI2 = s.SRI2
    ∧ (cut_SRE1 F s w).2.SRI3 = s.SRI3 := by
  obtain ⟨c₁, c₂, hc⟩ := cut_SRE1_frame F s w
  rw [hc]
  exact ⟨rfl, rfl, rfl, rfl, rfl, rfl, rfl, rfl, rfl⟩

/-- The preselection condition after a call of `cut_SRE1`. -/
theorem cut_SRE1_condition (F : ExternalFunctions) (s : State) (w : ℚ) :
    preselection_condition F (cut_SRE1 F s w).2 ↔ preselection_condition F s := by
  obtain ⟨c₁, c₂, hc⟩ := cut_SRE1_frame F s w
  rw [hc]
  exact Iff.rfl

/-- The result of `cut_SRE1` when the preselection condition fails. -/
theorem cut_SRE1_fail (F : ExternalFunctions) (hdPhi : ∀ a b, 0 ≤ F.dPhi a b)
    (s : State) (w : ℚ) (h : ¬ preselection_condition F s) :
    cut_SRE1 F s w = (false, s) := by
  simp [cut_SRE1, cut_preselection_fail F hdPhi s 1 h]

/-- The result of `cut_SRE1` when the preselection condition holds. -/
theorem cut_SRE1_pass (F : ExternalFunctions) (hdPhi : ∀ a b, 0 ≤ F.dPhi a b)
    (s : State) (w : ℚ) (h : preselection_condition F s) :
    cut_SRE1 F s w = (decide (s.MET.get "pt" > 150 ∧ s.MET.get "pt" < 225),
      { s with
        preselection := ⟨s.preselection.count + 1, s.preselection.dcount + 1⟩
        SRE1 := if s.MET.get "pt" > 150 ∧ s.MET.get "pt" < 225 then
          ⟨s.SRE1.count + w, s.SRE1.dcount + w * w⟩ else s.SRE1 }) := by
  simp only [cut_SRE1, cut_preselection_pass F hdPhi s 1 h]
  by_cases hw : s.MET.get "pt" > 150 ∧ s.MET.get "pt" < 225
  · simp [hw]
  · simp [hw]


/-- The value, the preselection counter and the own counter after a call of
`cut_SRE2` when the preselection condition holds. -/
theorem cut_SRE2_pass_parts (F : ExternalFunctions) (hdPhi : ∀ a b, 0 ≤ F.dPhi a b)
    (s : State) (w : ℚ) (h : preselection_condition F s) :
    (cut_SRE2 F s w).1 = decide (s.MET.get "pt" > 225 ∧ s.MET.get "pt" < 300)
    ∧ (cut_SRE2 F s w).2.preselection
        = ⟨s.preselection.count + 1, s.preselection.dcount + 1⟩
    ∧ (cut_SRE2 F s w).2.SRE2 = if s.MET.get "pt" > 225 ∧ s.MET.get "pt" < 300 then
          ⟨s.SRE2.count + w, s.SRE2.dcount + w * w⟩ else s.SRE2 := by
  rw [cut_SRE2_pass F hdPhi s w h]
  exact ⟨rfl, rfl, rfl⟩

/-- The value, the preselection counter and the own counter after a call of
`cut_SRI1` when the preselection condition holds. -/
theorem cut_SRI1_pass_parts (F : ExternalFunctions) (hdPhi : ∀ a b, 0 ≤ F.dPhi a b)
    (s : State) (w : ℚ) (h : preselection_condition F s) :
    (cut_SRI1 F s w).1 = decide (s.MET.get "pt" > 150)
    ∧ (cut_SRI1 F s w).2.preselection
        = ⟨s.preselection.count + 1, s.preselection.dcount + 1⟩
    ∧ (cut_SRI1 F s w).2.SRI1 = if s.MET.get "pt" > 150 then
          ⟨s.SRI1.count + w, s.SRI1.dcount + w * w⟩ else s.SRI1 := by
  rw [cut_SRI1_pass F hdPhi s w h]
  exact ⟨rfl, rfl, rfl⟩

/-- The value, the preselection counter and the own counter after a call of
`cut_SRI2` when the preselection condition holds. -/
theorem cut_SRI2_pass_parts (F : ExternalFunctions) (hdPhi : ∀ a b, 0 ≤ F.dPhi a b)
    (s : State) (w : ℚ) (h : preselection_condition F s) :
    (cut_SRI2 F s w).1 = decide (s.MET.get "pt" > 225)
    ∧ (cut_SRI2 F s w).2.preselection
        = ⟨s.preselection.count + 1, s.preselection.dcount + 1⟩
    ∧ (cut_SRI2 F s w).2.SRI2 = if s.MET.get "pt" > 225 then
          ⟨s.SRI2.count + w, s.SRI2.dcount + w * w⟩ else s.SRI2 := by
  rw [cut_SRI2_pass F hdPhi s w h]
  exact ⟨rfl, rfl, rfl⟩

/-- The value, the preselection counter and the own counter after a call of
`cut_SRI3` when the preselection condition holds. -/
theorem cut_SRI3_pass_parts (F : ExternalFunctions) (hdPhi : ∀ a b, 0 ≤ F.dPhi a b)
    (s : State) (w : ℚ) (h : preselection_condition F s) :
    (cut_SRI3 F s w).1 = decide (s.MET.get "pt" > 300)
    ∧ (cut_SRI3 F s w).2.preselection
        = ⟨s.preselection.count + 1, s.preselection.dcount + 1⟩
    ∧ (cut_SRI3 F s w).2.SRI3 = if s.MET.get "pt" > 300 then
          ⟨s.SRI3.count + w, s.SRI3.dcount + w * w⟩ else s.SRI3 := by
  rw [cut_SRI3_pass F hdPhi s w h]
  exact ⟨rfl, rfl, rfl⟩

/-- The value, the preselection counter and the own counter after a call of
`cut_SRE1` when the preselection condition holds. -/
theorem cut_SRE1_pass_parts (F : ExternalFunctions) (hdPhi : ∀ a b, 0 ≤ F.dPhi a b)
    (s : State) (w : ℚ) (h : preselection_condition F s) :
    (cut_SRE1 F s w).1 = decide (s.MET.get "pt" > 150 ∧ s.MET.get "pt" < 225)
    ∧ (cut_SRE1 F s w).2.preselection
        = ⟨s.preselection.count + 1, s.preselection.dcount + 1⟩
    ∧ (cut_SRE1 F s w).2.SRE1 = if s.MET.get "pt" > 150 ∧ s.MET.get "pt" < 225 then
          ⟨s.SRE1.count + w, s.SRE1.dcount + w * w⟩ else s.SRE1 := by
  rw [cut_SRE1_pass F hdPhi s w h]
  exact ⟨rfl, rfl, rfl⟩

/-- The sample `dPhi` has no negative values. -/
theorem sample_dPhi_nonneg : ∀ a b, 0 ≤ sample_functions.dPhi a b := by
  intro a b
  exact abs_nonneg _

/-- The preselection condition holds on the globals of scenario 2. -/
theorem scenario2_condition : preselection_condition sample_functions scenario2_state := by
  refine ⟨particle 200 0 1, [], rfl, ?_, ?_, ?_, rfl, rfl⟩
  · simp [particle, TEParticle.get]
    norm_num
  · simp [particle, TEParticle.get, scenario2_state, sample_functions]
    norm_num
  · simp [scenario2_state]
    norm_num

/-! ## Helper lemmas on the event loop -/

/-- Writing an attribute twice leaves the second value. -/
theorem set_set (p : TEParticle) (name : String) (x y : ℚ) :
    (p.set name x).set name y = p.set name y := by
  simp only [TEParticle.set, TEParticle.mk.injEq]
  funext k
  split_ifs <;> rfl

/-- With an empty reference collection the outer loop returns the candidates
as they are, both as candidates and as output. -/
theorem overlap_removal_nil (F : ExternalFunctions) (name : String) (cut : ℚ)
    (cands : List TEParticle) :
    overlap_removal F name cut cands [] = (cands, cands) := by
  rw [overlap_removal_eq]
  simp [overlap_scan]

/-- Over a non-empty reference collection the inner loop does not see a value
of the attribute written before it. -/
theorem overlap_scan_set (F : ExternalFunctions) (name : String) (cut : ℚ)
    (heta : "eta" ≠ name) (hphi : "phi" ≠ name)
    (refs : List TEParticle) (hne : refs ≠ []) (p : TEParticle) (x : ℚ) :
    overlap_scan F name cut (p.set name x) refs = overlap_scan F name cut p refs := by
  cases refs with
  | nil => exact absurd rfl hne
  | cons q rest =>
    simp only [overlap_scan, set_set, get_set_other p name "eta" x heta,
      get_set_other p name "phi" x hphi]

/-- Over a non-empty reference collection the inner loop leaves the candidate
with the attribute written. -/
theorem overlap_scan_form (F : ExternalFunctions) (name : String) (cut : ℚ)
    (refs : List TEParticle) (hne : refs ≠ []) (p : TEParticle) :
    ∃ x, (overlap_scan F name cut p refs).1 = p.set name x := by
  induction refs generalizing p with
  | nil => exact absurd rfl hne
  | cons q rest ih =>
    simp only [overlap_scan]
    split_ifs
    · exact ⟨_, rfl⟩
    · cases rest with
      | nil => exact ⟨_, rfl⟩
      | cons r rest₁ =>
        obtain ⟨x, hx⟩ := ih (by simp) (p.set name
          (F.dR (p.get "eta") (p.get "phi") (q.get "eta") (q.get "phi")))
        exact ⟨x, by rw [hx, set_set]⟩

/-- Running the inner loop again on the candidate it left gives the same
candidate and the same flag. -/
theorem overlap_scan_idem (F : ExternalFunctions) (name : String) (cut : ℚ)
    (heta : "eta" ≠ name) (hphi : "phi" ≠ name)
    (refs : List TEParticle) (p : TEParticle) :
    overlap_scan F name cut (overlap_scan F name cut p refs).1 refs
      = overlap_scan F name cut p refs := by
  by_cases hne : refs = []
  · subst hne
    rfl
  · obtain ⟨x, hx⟩ := overlap_scan_form F name cut refs hne p
    rw [hx, overlap_scan_set F name cut heta hphi refs hne]

/-- Running an overlap removal again on its own output, against the same
reference collection, returns that output. -/
theorem overlap_removal_idem (F : ExternalFunctions) (name : String) (cut : ℚ)
    (heta : "eta" ≠ name) (hphi : "phi" ≠ name) (cands refs : List TEParticle) :
    overlap_removal F name cut (overlap_removal F name cut cands refs).2 refs
      = ((overlap_removal F name cut cands refs).2,
         (overlap_removal F name cut cands refs).2) := by
  have hid := overlap_scan_idem F name cut heta hphi refs
  rw [overlap_removal_eq F name cut (overlap_removal F name cut cands refs).2 refs,
    overlap_removal_eq F name cut cands refs]
  simp only [List.map_map, List.filter_map, Function.comp_def, hid, List.filter_filter,
    Bool.and_self]

/-- Over a non-empty reference collection the flag `skip` is set exactly when
the attribute ends below the threshold. -/
theorem overlap_scan_skip_iff_attr (F : ExternalFunctions) (name : String) (cut : ℚ)
    (refs : List TEParticle) (hne : refs ≠ []) (p : TEParticle) :
    (overlap_scan F name cut p refs).2 = true
      ↔ (overlap_scan F name cut p refs).1.get name < cut := by
  induction refs generalizing p with
  | nil => exact absurd rfl hne
  | cons q rest ih =>
    simp only [overlap_scan, get_set_same]
    split_ifs with hlt
    · simp only [get_set_same, hlt]
    · cases rest with
      | nil => simp only [overlap_scan, get_set_same, hlt, Bool.false_eq_true]
      | cons r rest₁ => exact ih (by simp) _

/-- When no reference record is closer than the threshold the attribute ends
as the separation from the last reference record. -/
theorem overlap_scan_attr_last (F : ExternalFunctions) (name : String) (cut : ℚ)
    (heta : "eta" ≠ name) (hphi : "phi" ≠ name)
    (refs : List TEParticle) (hne : refs ≠ []) (p : TEParticle)
    (hall : ∀ q ∈ refs, F.dR (p.get "eta") (p.get "phi") (q.get "eta") (q.get "phi") ≥ cut) :
    (overlap_scan F name cut p refs).1.get name
      = F.dR (p.get "eta") (p.get "phi") ((refs.getLast hne).get "eta")
          ((refs.getLast hne).get "phi") := by
  induction refs generalizing p with
  | nil => exact absurd rfl hne
  | cons q rest ih =>
    have hq := hall q (List.mem_cons_self _ _)
    simp only [overlap_scan, get_set_same, if_neg (not_lt.mpr hq)]
    cases rest with
    | nil => simp only [overlap_scan, get_set_same, List.getLast_singleton]
    | cons r rest₁ =>
      rw [ih (by simp)]
      · rw [get_set_other p name "eta" _ heta, get_set_other p name "phi" _ hphi]
        rfl
      · intro q' hq'
        rw [get_set_other p name "eta" _ heta, get_set_other p name "phi" _ hphi]
        exact hall q' (List.mem_cons_of_mem _ hq')

/-- When a reference record is closer than the threshold and none before it is,
the attribute ends as the separation from that record. -/
theorem overlap_scan_attr_first (F : ExternalFunctions) (name : String) (cut : ℚ)
    (heta : "eta" ≠ name) (hphi : "phi" ≠ name)
    (pre : List TEParticle) (q : TEParticle) (post : List TEParticle) (p : TEParticle)
    (hpre : ∀ r ∈ pre, F.dR (p.get "eta") (p.get "phi") (r.get "eta") (r.get "phi") ≥ cut)
    (hq : F.dR (p.get "eta") (p.get "phi") (q.get "eta") (q.get "phi") < cut) :
    (overlap_scan F name cut p (pre ++ q :: post)).1.get name
      = F.dR (p.get "eta") (p.get "phi") (q.get "eta") (q.get "phi") := by
  induction pre generalizing p with
  | nil => simp only [List.nil_append, overlap_scan, get_set_same, if_pos hq]
  | cons a rest ih =>
    have ha := hpre a (List.mem_cons_self _ _)
    simp only [List.cons_append, overlap_scan, get_set_same, if_neg (not_lt.mpr ha)]
    have key := ih
      (p.set name (F.dR (p.get "eta") (p.get "phi") (a.get "eta") (a.get "phi")))
      (by
        intro r hr
        rw [get_set_other p name "eta" _ heta, get_set_other p name "phi" _ hphi]
        exact hpre r (List.mem_cons_of_mem _ hr))
      (by
        rw [get_set_other p name "eta" _ heta, get_set_other p name "phi" _ hphi]
        exact hq)
    rw [get_set_other p name "eta" _ heta, get_set_other p name "phi" _ hphi] at key
    exact key

/-- The value returned by `cut_preselection` depends only on the five globals it
reads, not on the counters and not on the weight. -/
theorem cut_preselection_value_congr (F : ExternalFunctions) (s t : State) (w v : ℚ)
    (h₁ : t.tightphotons = s.tightphotons) (h₂ : t.MET = s.MET)
    (h₃ : t.METoverSqrtSumET_ = s.METoverSqrtSumET_)
    (h₄ : t.cleanmuons = s.cleanmuons) (h₅ : t.cleanelectrons = s.cleanelectrons) :
    (cut_preselection F t v).1 = (cut_preselection F s w).1 := by
  unfold cut_preselection
  rw [h₁, h₂, h₃, h₄, h₅]
  cases s.tightphotons with
  | nil => rfl
  | cons p0 rest =>
    simp only []
    split_ifs <;> rfl

/-- The preselection counter after a call of `cut_preselection`, by the value
returned. -/
theorem cut_preselection_counter (F : ExternalFunctions) (s : State) (w : ℚ) :
    (cut_preselection F s w).2.preselection
      = if (cut_preselection F s w).1 = true then
          ⟨s.preselection.count + w, s.preselection.dcount + w * w⟩
        else s.preselection := by
  rw [cut_preselection_state]
  split_ifs <;> rfl

/-- With no tight photon `cut_preselection` returns false and changes nothing. -/
theorem cut_preselection_of_nil (F : ExternalFunctions) (s : State) (w : ℚ)
    (h : s.tightphotons = []) : cut_preselection F s w = (false, s) := by
  unfold cut_preselection
  rw [h]

/-- With no tight photon `cut_SRE2` returns false and changes nothing. -/
theorem cut_SRE2_of_nil (F : ExternalFunctions) (s : State) (w : ℚ)
    (h : s.tightphotons = []) : cut_SRE2 F s w = (false, s) := by
  simp [cut_SRE2, cut_preselection_of_nil F s 1 h]

/-- The value returned by `cut_SRE2`, the preselection counter and the own counter
after the call, by the value of the nested `cut_preselection()`. -/
theorem cut_SRE2_summary (F : ExternalFunctions) (s : State) (w : ℚ) :
    (cut_SRE2 F s w).1
        = ((cut_preselection F s 1).1 && decide (s.MET.get "pt" > 225 ∧ s.MET.get "pt" < 300))
    ∧ (cut_SRE2 F s w).2.preselection
        = (if (cut_preselection F s 1).1 = true then
            ⟨s.preselection.count + 1, s.preselection.dcount + 1⟩
          else s.preselection)
    ∧ (cut_SRE2 F s w).2.SRE2
        = (if (cut_preselection F s 1).1 = true ∧ (s.MET.get "pt" > 225 ∧ s.MET.get "pt" < 300) then
            ⟨s.SRE2.count + w, s.SRE2.dcount + w * w⟩
          else s.SRE2) := by
  have hs := cut_preselection_state F s 1
  by_cases hb : (cut_preselection F s 1).1 = true
  · rw [if_pos hb] at hs
    by_cases hw : s.MET.get "pt" > 225 ∧ s.MET.get "pt" < 300
    · simp [cut_SRE2, hb, hs, hw]
    · simp [cut_SRE2, hb, hs, hw]
  · rw [if_neg hb] at hs
    simp [cut_SRE2, hb, hs]

/-- The value of `cut_preselection` after a call of `cut_SRE2` is the value
before it. -/
theorem cut_SRE2_keeps_value (F : ExternalFunctions) (s : State) (w v : ℚ) :
    (cut_preselection F (cut_SRE2 F s w).2 v).1 = (cut_preselection F s v).1 := by
  have k := cut_SRE2_keeps F s w
  exact cut_preselection_value_congr F s _ v v k.1 k.2.1 k.2.2.1 k.2.2.2.1 k.2.2.2.2.1

/-- With no tight photon `cut_SRI1` returns false and changes nothing. -/
theorem cut_SRI1_of_nil (F : ExternalFunctions) (s : State) (w : ℚ)
    (h : s.tightphotons = []) : cut_SRI1 F s w = (false, s) := by
  simp [cut_SRI1, cut_preselection_of_nil F s 1 h]

/-- The value returned by `cut_SRI1`, the preselection counter and the own counter
after the call, by the value of the nested `cut_preselection()`. -/
theorem cut_SRI1_summary (F : ExternalFunctions) (s : State) (w : ℚ) :
    (cut_SRI1 F s w).1
        = ((cut_preselection F s 1).1 && decide (s.MET.get "pt" > 150))
    ∧ (cut_SRI1 F s w).2.preselection
        = (if (cut_preselection F s 1).1 = true then
            ⟨s.preselection.count + 1, s.preselection.dcount + 1⟩
          else s.preselection)
    ∧ (cut_SRI1 F s w).2.SRI1
        = (if (cut_preselection F s 1).1 = true ∧ (s.MET.get "pt" > 150) then
            ⟨s.SRI1.count + w, s.SRI1.dcount + w * w⟩
          else s.SRI1) := by
  have hs := cut_preselection_state F s 1
  by_cases hb : (cut_preselection F s 1).1 = true
  · rw [if_pos hb] at hs
    by_cases hw : s.MET.get "pt" > 150
    · simp [cut_SRI1, hb, hs, hw]
    · simp [cut_SRI1, hb, hs, hw]
  · rw [if_neg hb] at hs
    simp [cut_SRI1, hb, hs]

/-- The value of `cut_preselection` after a call of `cut_SRI1` is the value
before it. -/
theorem cut_SRI1_keeps_value (F : ExternalFunctions) (s : State) (w v : ℚ) :
    (cut_preselection F (cut_SRI1 F s w).2 v).1 = (cut_preselection F s v).1 := by
  have k := cut_SRI1_keeps F s w
  exact cut_preselection_value_congr F s _ v v k.1 k.2.1 k.2.2.1 k.2.2.2.1 k.2.2.2.2.1

/-- With no tight photon `cut_SRI2` returns false and changes nothing. -/
theorem cut_SRI2_of_nil (F : ExternalFunctions) (s : State) (w : ℚ)
    (h : s.tightphotons = []) : cut_SRI2 F s w = (false, s) := by
  simp [cut_SRI2, cut_preselection_of_nil F s 1 h]

/-- The value returned by `cut_SRI2`, the preselection counter and the own counter
after the call, by the value of the nested `cut_preselection()`. -/
theorem cut_SRI2_summary (F : ExternalFunctions) (s : State) (w : ℚ) :
    (cut_SRI2 F s w).1
        = ((cut_preselection F s 1).1 && decide (s.MET.get "pt" > 225))
    ∧ (cut_SRI2 F s w).2.preselection
        = (if (cut_preselection F s 1).1 = true then
            ⟨s.preselection.count + 1, s.preselection.dcount + 1⟩
          else s.preselection)
    ∧ (cut_SRI2 F s w).2.SRI2
        = (if (cut_preselection F s 1).1 = true ∧ (s.MET.get "pt" > 225) then
            ⟨s.SRI2.count + w, s.SRI2.dcount + w * w⟩
          else s.SRI2) := by
  have hs := cut_preselection_state F s 1
  by_cases hb : (cut_preselection F s 1).1 = true
  · rw [if_pos hb] at hs
    by_cases hw : s.MET.get "pt" > 225
    · simp [cut_SRI2, hb, hs, hw]
    · simp [cut_SRI2, hb, hs, hw]
  · rw [if_neg hb] at hs
    simp [cut_SRI2, hb, hs]

/-- The value of `cut_preselection` after a call of `cut_SRI2` is the value
before it. -/
theorem cut_SRI2_keeps_value (F : ExternalFunctions) (s : State) (w v : ℚ) :
    (cut_preselection F (cut_SRI2 F s w).2 v).1 = (cut_preselection F s v).1 := by
  have k := cut_SRI2_keeps F s w
  exact cut_preselection_value_congr F s _ v v k.1 k.2.1 k.2.2.1 k.2.2.2.1 k.2.2.2.2.1

/-- With no tight photon `cut_SRI3` returns false and changes nothing. -/
theorem cut_SRI3_of_nil (F : ExternalFunctions) (s : State) (w : ℚ)
    (h : s.tightphotons = []) : cut_SRI3 F s w = (false, s) := by
  simp [cut_SRI3, cut_preselection_of_nil F s 1 h]

/-- The value returned by `cut_SRI3`, the preselection counter and the own counter
after the call, by the value of the nested `cut_preselection()`. -/
theorem cut_SRI3_summary (F : ExternalFunctions) (s : State) (w : ℚ) :
    (cut_SRI3 F s w).1
        = ((cut_preselection F s 1).1 && decide (s.MET.get "pt" > 300))
    ∧ (cut_SRI3 F s w).2.preselection
        = (if (cut_preselection F s 1).1 = true then
            ⟨s.preselection.count + 1, s.preselection.dcount + 1⟩
          else s.preselection)
    ∧ (cut_SRI3 F s w).2.SRI3
        = (if (cut_preselection F s 1).1 = true ∧ (s.MET.get "pt" > 300) then
            ⟨s.SRI3.count + w, s.SRI3.dcount + w * w⟩
          else s.SRI3) := by
  have hs := cut_preselection_state F s 1
  by_cases hb : (cut_preselection F s 1).1 = true
  · rw [if_pos hb] at hs
    by_cases hw : s.MET.get "pt" > 300
    · simp [cut_SRI3, hb, hs, hw]
    · simp [cut_SRI3, hb, hs, hw]
  · rw [if_neg hb] at hs
    simp [cut_SRI3, hb, hs]

/-- The value of `cut_preselection` after a call of `cut_SRI3` is the value
before it. -/
theorem cut_SRI3_keeps_value (F : ExternalFunctions) (s : State) (w v : ℚ) :
    (cut_preselection F (cut_SRI3 F s w).2 v).1 = (cut_preselection F s v).1 := by
  have k := cut_SRI3_keeps F s w
  exact cut_preselection_value_congr F s _ v v k.1 k.2.1 k.2.2.1 k.2.2.2.1 k.2.2.2.2.1

/-- With no tight photon `cut_SRE1` returns false and changes nothing. -/
theorem cut_SRE1_of_nil (F : ExternalFunctions) (s : State) (w : ℚ)
    (h : s.tightphotons = []) : cut_SRE1 F s w = (false, s) := by
  simp [cut_SRE1, cut_preselection_of_nil F s 1 h]

/-- The value returned by `cut_SRE1`, the preselection counter and the own counter
after the call, by the value of the nested `cut_preselection()`. -/
theorem cut_SRE1_summary (F : ExternalFunctions) (s : State) (w : ℚ) :
    (cut_SRE1 F s w).1
        = ((cut_preselection F s 1).1 && decide (s.MET.get "pt" > 150 ∧ s.MET.get "pt" < 225))
    ∧ (cut_SRE1 F s w).2.preselection
        = (if (cut_preselection F s 1).1 = true then
            ⟨s.preselection.count + 1, s.preselection.dcount + 1⟩
          else s.preselection)
    ∧ (cut_SRE1 F s w).2.SRE1
        = (if (cut_preselection F s 1).1 = true ∧ (s.MET.get "pt" > 150 ∧ s.MET.get "pt" < 225) then
            ⟨s.SRE1.count + w, s.SRE1.dcount + w * w⟩
          else s.SRE1) := by
  have hs := cut_preselection_state F s 1
  by_cases hb : (cut_preselection F s 1).1 = true
  · rw [if_pos hb] at hs
    by_cases hw : s.MET.get "pt" > 150 ∧ s.MET.get "pt" < 225
    · simp [cut_SRE1, hb, hs, hw]
    · simp [cut_SRE1, hb, hs, hw]
  · rw [if_neg hb] at hs
    simp [cut_SRE1, hb, hs]

/-- The value of `cut_preselection` after a call of `cut_SRE1` is the value
before it. -/
theorem cut_SRE1_keeps_value (F : ExternalFunctions) (s : State) (w v : ℚ) :
    (cut_preselection F (cut_SRE1 F s w).2 v).1 = (cut_preselection F s v).1 := by
  have k := cut_SRE1_keeps F s w
  exact cut_preselection_value_congr F s _ v v k.1 k.2.1 k.2.2.1 k.2.2.2.1 k.2.2.2.2.1

/-- The value of `cut_preselection` after a call of `cut_preselection` is the
value before it. -/
theorem cut_preselection_keeps_value (F : ExternalFunctions) (s : State) (w v : ℚ) :
    (cut_preselection F (cut_preselection F s w).2 v).1 = (cut_preselection F s v).1 := by
  have k := cut_preselection_keeps F s w
  exact cut_preselection_value_congr F s _ v v k.1 k.2.1 k.2.2.1 k.2.2.2.1 k.2.2.2.2.1

/-- The block "apply event level selections" in closed form: the six returned
values and the six counters after the block, by the value of
`cut_preselection` and by `MET("pt")` before the block. -/
theorem apply_selections_summary (F : ExternalFunctions) (s : State) :
    selection_results F s
        = [(cut_preselection F s 1).1,
           ((cut_preselection F s 1).1 && decide (s.MET.get "pt" > 225 ∧ s.MET.get "pt" < 300)),
           ((cut_preselection F s 1).1 && decide (s.MET.get "pt" > 150)),
           ((cut_preselection F s 1).1 && decide (s.MET.get "pt" > 225)),
           ((cut_preselection F s 1).1 && decide (s.MET.get "pt" > 300)),
           ((cut_preselection F s 1).1 && decide (s.MET.get "pt" > 150 ∧ s.MET.get "pt" < 225))]
    ∧ (apply_selections F s).preselection
        = (if (cut_preselection F s 1).1 = true then
            ⟨s.preselection.count + 6, s.preselection.dcount + 6⟩ else s.preselection)
    ∧ (apply_selections F s).SRE2
        = (if (cut_preselection F s 1).1 = true
              ∧ (s.MET.get "pt" > 225 ∧ s.MET.get "pt" < 300) then
            ⟨s.SRE2.count + 1, s.SRE2.dcount + 1⟩ else s.SRE2)
    ∧ (apply_selections F s).SRI1
        = (if (cut_preselection F s 1).1 = true ∧ s.MET.get "pt" > 150 then
            ⟨s.SRI1.count + 1, s.SRI1.dcount + 1⟩ else s.SRI1)
    ∧ (apply_selections F s).SRI2
        = (if (cut_preselection F s 1).1 = true ∧ s.MET.get "pt" > 225 then
            ⟨s.SRI2.count + 1, s.SRI2.dcount + 1⟩ else s.SRI2)
    ∧ (apply_selections F s).SRI3
        = (if (cut_preselection F s 1).1 = true ∧ s.MET.get "pt" > 300 then
            ⟨s.SRI3.count + 1, s.SRI3.dcount + 1⟩ else s.SRI3)
    ∧ (apply_selections F s).SRE1
        = (if (cut_preselection F s 1).1 = true
              ∧ (s.MET.get "pt" > 150 ∧ s.MET.get "pt" < 225) then
            ⟨s.SRE1.count + 1, s.SRE1.dcount + 1⟩ else s.SRE1) := by
  have k₁ := cut_preselection_keeps F s 1
  have k₂ := cut_SRE2_keeps F (cut_preselection F s 1).2 1
  have k₃ := cut_SRI1_keeps F (cut_SRE2 F (cut_preselection F s 1).2 1).2 1
  have k₄ := cut_SRI2_keeps F (cut_SRI1 F (cut_SRE2 F (cut_preselection F s 1).2 1).2 1).2 1
  have k₅ := cut_SRI3_keeps F
    (cut_SRI2 F (cut_SRI1 F (cut_SRE2 F (cut_preselection F s 1).2 1).2 1).2 1).2 1
  have k₆ := cut_SRE1_keeps F (cut_SRI3 F
    (cut_SRI2 F (cut_SRI1 F (cut_SRE2 F (cut_preselection F s 1).2 1).2 1).2 1).2 1).2 1
  have v₁ := cut_preselection_keeps_value F s 1 1
  have v₂ := cut_SRE2_keeps_value F (cut_preselection F s 1).2 1 1
  have v₃ := cut_SRI1_keeps_value F (cut_SRE2 F (cut_preselection F s 1).2 1).2 1 1
  have v₄ := cut_SRI2_keeps_value F
    (cut_SRI1 F (cut_SRE2 F (cut_preselection F s 1).2 1).2 1).2 1 1
  have v₅ := cut_SRI3_keeps_value F
    (cut_SRI2 F (cut_SRI1 F (cut_SRE2 F (cut_preselection F s 1).2 1).2 1).2 1).2 1 1
  rw [v₁] at v₂
  rw [v₂] at v₃
  rw [v₃] at v₄
  rw [v₄] at v₅
  have e₁ := cut_preselection_counter F s 1
  have e₂ := cut_SRE2_summary F (cut_preselection F s 1).2 1
  have e₃ := cut_SRI1_summary F (cut_SRE2 F (cut_preselection F s 1).2 1).2 1
  have e₄ := cut_SRI2_summary F (cut_SRI1 F (cut_SRE2 F (cut_preselection F s 1).2 1).2 1).2 1
  have e₅ := cut_SRI3_summary F
    (cut_SRI2 F (cut_SRI1 F (cut_SRE2 F (cut_preselection F s 1).2 1).2 1).2 1).2 1
  have e₆ := cut_SRE1_summary F (cut_SRI3 F
    (cut_SRI2 F (cut_SRI1 F (cut_SRE2 F (cut_preselection F s 1).2 1).2 1).2 1).2 1).2 1
  rw [v₁] at e₂
  rw [v₂] at e₃
  rw [v₃] at e₄
  rw [v₄] at e₅
  rw [v₅] at e₆
  simp only [k₁, k₂, k₃, k₄, k₅] at e₂ e₃ e₄ e₅ e₆
  simp only [selection_results, apply_selections]
  refine ⟨?_, ?_, ?_, ?_, ?_, ?_, ?_⟩
  · rw [e₆.1, e₅.1, e₄.1, e₃.1, e₂.1]
  · rw [e₆.2.1, e₅.2.1, e₄.2.1, e₃.2.1, e₂.2.1, e₁]
    by_cases hb : (cut_preselection F s 1).1 = true
    · simp only [hb, if_true]
      norm_num
      constructor <;> ring
    · simp [hb]
  · simp only [k₆, k₅, k₄, k₃, e₂.2.2]
    norm_num
  · simp only [k₆, k₅, k₄, e₃.2.2]
    norm_num
  · simp only [k₆, k₅, e₄.2.2]
    norm_num
  · simp only [k₆, e₅.2.2]
    norm_num
  · simp only [e₆.2.2]
    norm_num

/-- The internal objects and the event-level variable before the selections are
determined by the event alone; the builders and the variable leave the six
counters as they were. -/
theorem before_selections_eq (F : ExternalFunctions) (ev : Event) (s : State) :
    before_selections F ev s
      = { before_selections F ev initial_state with
          preselection := s.preselection
          SRE2 := s.SRE2
          SRI1 := s.SRI1
          SRI2 := s.SRI2
          SRI3 := s.SRI3
          SRE1 := s.SRE1 } := by
  simp only [before_selections, compute_event_level_variables, create_internal_objects,
    get_external_objects, object_scalarHT, object_photons, object_muons, object_jets,
    object_MET, object_electrons, object_tightphotons, object_cleanjets,
    object_cleanelectrons, object_jetsSR, object_cleanmuons]

/-- The tight photons before the selections are the output of the
`tightphotons` builder, which is empty. -/
theorem before_selections_tightphotons (F : ExternalFunctions) (ev : Event) (s : State) :
    (before_selections F ev s).tightphotons = [] := by
  have h : (before_selections F ev s).tightphotons
      = (object_tightphotons (object_electrons (object_MET (object_jets (object_muons
          (object_photons (object_scalarHT (get_external_objects ev s)))))))).tightphotons := by
    simp only [before_selections, compute_event_level_variables, create_internal_objects,
      object_cleanjets, object_cleanelectrons, object_jetsSR, object_cleanmuons]
  rw [h]
  exact object_tightphotons_nil _

/-- The value of `cut_preselection` and `MET` before the selections do not
depend on the globals before the event. -/
theorem before_selections_reads (F : ExternalFunctions) (ev : Event) (s : State) (w : ℚ) :
    (cut_preselection F (before_selections F ev s) w).1
        = (cut_preselection F (before_selections F ev initial_state) w).1
    ∧ (before_selections F ev s).MET = (before_selections F ev initial_state).MET
    ∧ (before_selections F ev s).preselection = s.preselection
    ∧ (before_selections F ev s).SRE2 = s.SRE2
    ∧ (before_selections F ev s).SRI1 = s.SRI1
    ∧ (before_selections F ev s).SRI2 = s.SRI2
    ∧ (before_selections F ev s).SRI3 = s.SRI3
    ∧ (before_selections F ev s).SRE1 = s.SRE1 := by
  have h := before_selections_eq F ev s
  refine ⟨?_, ?_, ?_, ?_, ?_, ?_, ?_, ?_⟩
  · apply cut_preselection_value_congr <;> rw [h]
  all_goals rw [h]

/-- With no tight photon the six calls of the driver return false and change
nothing. -/
theorem selections_of_nil (F : ExternalFunctions) (s : State) (h : s.tightphotons = []) :
    selection_results F s = [false, false, false, false, false, false]
    ∧ apply_selections F s = s := by
  simp only [selection_results, apply_selections, cut_preselection_of_nil F s 1 h,
    cut_SRE2_of_nil F s 1 h, cut_SRI1_of_nil F s 1 h, cut_SRI2_of_nil F s 1 h,
    cut_SRI3_of_nil F s 1 h, cut_SRE1_of_nil F s 1 h, and_self]

/-- With no tight photon the globals are the same after each of the six calls
of the driver. -/
theorem selection_states_of_nil (F : ExternalFunctions) (s : State)
    (h : s.tightphotons = []) :
    selection_states F s = [s, s, s, s, s, s, s] := by
  simp only [selection_states, cut_preselection_of_nil F s 1 h, cut_SRE2_of_nil F s 1 h,
    cut_SRI1_of_nil F s 1 h, cut_SRI2_of_nil F s 1 h, cut_SRI3_of_nil F s 1 h,
    cut_SRE1_of_nil F s 1 h]

/-- A counter does not change along a run that stays at the same globals. -/
theorem updates_of_constant (sel : State → Cut) (s : State) :
    updates sel [s, s, s, s, s, s, s] = 0 := by
  simp [updates]

/-- The six counters after one event, by the value of `cut_preselection` and by
`MET("pt")` on the internal objects built from the event. -/
theorem process_event_summary (F : ExternalFunctions) (ev : Event) (s : State) :
    (process_event F ev s).preselection
        = (if (cut_preselection F (before_selections F ev initial_state) 1).1 = true then
            ⟨s.preselection.count + 6, s.preselection.dcount + 6⟩ else s.preselection)
    ∧ (process_event F ev s).SRE2
        = (if (cut_preselection F (before_selections F ev initial_state) 1).1 = true
              ∧ ((before_selections F ev initial_state).MET.get "pt" > 225
                ∧ (before_selections F ev initial_state).MET.get "pt" < 300) then
            ⟨s.SRE2.count + 1, s.SRE2.dcount + 1⟩ else s.SRE2)
    ∧ (process_event F ev s).SRI1
        = (if (cut_preselection F (before_selections F ev initial_state) 1).1 = true
              ∧ (before_selections F ev initial_state).MET.get "pt" > 150 then
            ⟨s.SRI1.count + 1, s.SRI1.dcount + 1⟩ else s.SRI1)
    ∧ (process_event F ev s).SRI2
        = (if (cut_preselection F (before_selections F ev initial_state) 1).1 = true
              ∧ (before_selections F ev initial_state).MET.get "pt" > 225 then
            ⟨s.SRI2.count + 1, s.SRI2.dcount + 1⟩ else s.SRI2)
    ∧ (process_event F ev s).SRI3
        = (if (cut_preselection F (before_selections F ev initial_state) 1).1 = true
              ∧ (before_selections F ev initial_state).MET.get "pt" > 300 then
            ⟨s.SRI3.count + 1, s.SRI3.dcount + 1⟩ else s.SRI3)
    ∧ (process_event F ev s).SRE1
        = (if (cut_preselection F (before_selections F ev initial_state) 1).1 = true
              ∧ ((before_selections F ev initial_state).MET.get "pt" > 150
                ∧ (before_selections F ev initial_state).MET.get "pt" < 225) then
            ⟨s.SRE1.count + 1, s.SRE1.dcount + 1⟩ else s.SRE1) := by
  have h := (apply_selections_summary F (before_selections F ev s)).2
  have r := before_selections_reads F ev s 1
  rw [r.1, r.2.1, r.2.2.1, r.2.2.2.1, r.2.2.2.2.1, r.2.2.2.2.2.1, r.2.2.2.2.2.2.1,
    r.2.2.2.2.2.2.2] at h
  exact h

/-- With the `tightphotons` builder as coded, one event changes none of the six
counters. -/
theorem process_event_counters (F : ExternalFunctions) (ev : Event) (s : State) :
    (process_event F ev s).preselection = s.preselection
    ∧ (process_event F ev s).SRE2 = s.SRE2
    ∧ (process_event F ev s).SRI1 = s.SRI1
    ∧ (process_event F ev s).SRI2 = s.SRI2
    ∧ (process_event F ev s).SRI3 = s.SRI3
    ∧ (process_event F ev s).SRE1 = s.SRE1 := by
  have hs := selections_of_nil F (before_selections F ev s)
    (before_selections_tightphotons F ev s)
  have hpe : process_event F ev s = before_selections F ev s := hs.2
  rw [hpe]
  exact (before_selections_reads F ev s 1).2.2

/-- With the `tightphotons` builder as coded, a sequence of events changes none
of the six counters. -/
theorem event_loop_counters (F : ExternalFunctions) (evs : List Event) (s : State) :
    (event_loop F evs s).preselection = s.preselection
    ∧ (event_loop F evs s).SRE2 = s.SRE2
    ∧ (event_loop F evs s).SRI1 = s.SRI1
    ∧ (event_loop F evs s).SRI2 = s.SRI2
    ∧ (event_loop F evs s).SRI3 = s.SRI3
    ∧ (event_loop F evs s).SRE1 = s.SRE1 := by
  induction evs generalizing s with
  | nil => exact ⟨rfl, rfl, rfl, rfl, rfl, rfl⟩
  | cons ev rest ih =>
    have h₁ := process_event_counters F ev s
    have h₂ := ih (process_event F ev s)
    simp only [event_loop, List.foldl_cons] at h₂ ⊢
    rw [h₂.1, h₂.2.1, h₂.2.2.1, h₂.2.2.2.1, h₂.2.2.2.2.1, h₂.2.2.2.2.2]
    exact h₁

/-- One event keeps the counter of `SRI1` at least that of `SRE1` and the
counter of `SRI2` at least that of `SRE2`. -/
theorem process_event_inclusive (F : ExternalFunctions) (ev : Event) (s : State) :
    (s.SRE1.count ≤ s.SRI1.count →
      (process_event F ev s).SRE1.count ≤ (process_event F ev s).SRI1.count)
    ∧ (s.SRE2.count ≤ s.SRI2.count →
      (process_event F ev s).SRE2.count ≤ (process_event F ev s).SRI2.count) := by
  have h := process_event_summary F ev s
  constructor
  · intro h₀
    rw [h.2.2.2.2.2, h.2.2.1]
    by_cases hb : (cut_preselection F (before_selections F ev initial_state) 1).1 = true
    · by_cases h₁ : (before_selections F ev initial_state).MET.get "pt" > 150
      · by_cases h₂ : (before_selections F ev initial_state).MET.get "pt" < 225
        · simp only [hb, h₁, h₂, and_self, if_true]
          linarith
        · simp only [hb, h₁, h₂, and_false, and_true, if_true, if_false]
          linarith
      · simp only [hb, h₁, false_and, and_false, if_false]
        exact h₀
    · simp only [hb, false_and, if_false]
      exact h₀
  · intro h₀
    rw [h.2.1, h.2.2.2.1]
    by_cases hb : (cut_preselection F (before_selections F ev initial_state) 1).1 = true
    · by_cases h₁ : (before_selections F ev initial_state).MET.get "pt" > 225
      · by_cases h₂ : (before_selections F ev initial_state).MET.get "pt" < 300
        · simp only [hb, h₁, h₂, and_self, if_true]
          linarith
        · simp only [hb, h₁, h₂, and_false, and_true, if_true, if_false]
          linarith
      · simp only [hb, h₁, false_and, and_false, if_false]
        exact h₀
    · simp only [hb, false_and, if_false]
      exact h₀

/-- On the globals of scenario 2 `MET("pt")` is 260. -/
theorem scenario2_MET_pt : scenario2_state.MET.get "pt" = 260 := by
  simp [scenario2_state, particle, TEParticle.get]

/-- On the globals of scenario 2 `cut_SRE2` returns true, for every weight. -/
theorem scenario2_passes_SRE2 (w : ℚ) :
    (cut_SRE2 sample_functions scenario2_state w).1 = true := by
  rw [cut_SRE2_pass sample_functions sample_dPhi_nonneg scenario2_state w scenario2_condition,
    scenario2_MET_pt]
  simp only [decide_eq_true_eq]
  norm_num

/-! ## Theorems -/

/-- C1: for a `dPhi` without negative values, `cut_preselection(w)` returns true
exactly when the preselection condition holds (tight photons non-empty, leading
`pt > 150`, `|dPhi| > 0.4`, `METoverSqrtSumET_ > 8.5`, no clean muons, no clean
electrons); when it returns true it adds `w` to its `count` and `w * w` to its
`dcount` and changes nothing else, and when it returns false it changes
nothing. -/
theorem cut_preselection_contract (F : ExternalFunctions)
    (hdPhi : ∀ a b, 0 ≤ F.dPhi a b) (s : State) (w : ℚ) :
    ((cut_preselection F s w).1 = true ↔ preselection_condition F s)
    ∧ ((cut_preselection F s w).1 = true →
        (cut_preselection F s w).2 = { s with preselection :=
          ⟨s.preselection.count + w, s.preselection.dcount + w * w⟩ })
    ∧ ((cut_preselection F s w).1 = false → (cut_preselection F s w).2 = s) := by
  refine ⟨cut_preselection_true_iff F hdPhi s w, ?_, ?_⟩
  · intro h
    rw [cut_preselection_state, if_pos h]
  · intro h
    rw [cut_preselection_state, if_neg (by simp [h])]

/-- Witness of C1 on scenario 2 with weight 3: the condition holds, the call
returns true and the counter goes from `(0, 0)` to `(3, 9)`. -/
theorem cut_preselection_contract_witness :
    (∀ a b, 0 ≤ sample_functions.dPhi a b)
    ∧ (cut_preselection sample_functions scenario2_state 3).1 = true
    ∧ (cut_preselection sample_functions scenario2_state 3).2.preselection.count = 3
    ∧ (cut_preselection sample_functions scenario2_state 3).2.preselection.dcount = 9 := by
  have h := cut_preselection_contract sample_functions sample_dPhi_nonneg scenario2_state 3
  have ht := h.1.mpr scenario2_condition
  refine ⟨sample_dPhi_nonneg, ht, ?_, ?_⟩
  · rw [h.2.1 ht]
    norm_num [scenario2_state, initial_state]
  · rw [h.2.1 ht]
    norm_num [scenario2_state, initial_state]

/-- C2: for a `dPhi` without negative values, each region predicate returns
true exactly when the preselection condition holds and `MET("pt")` lies in the
window of the region (`SRE1`: 150 to 225, `SRE2`: 225 to 300, `SRI1`: above
150, `SRI2`: above 225, `SRI3`: above 300, all bounds strict), and the own
counter of the region receives `weight` and `weight * weight` when it returns
true and is unchanged when it returns false. -/
theorem region_predicates_contract (F : ExternalFunctions)
    (hdPhi : ∀ a b, 0 ≤ F.dPhi a b) :
    region_contract F cut_SRE1 State.SRE1 (fun x => x > 150 ∧ x < 225)
    ∧ region_contract F cut_SRE2 State.SRE2 (fun x => x > 225 ∧ x < 300)
    ∧ region_contract F cut_SRI1 State.SRI1 (fun x => x > 150)
    ∧ region_contract F cut_SRI2 State.SRI2 (fun x => x > 225)
    ∧ region_contract F cut_SRI3 State.SRI3 (fun x => x > 300) := by
  refine ⟨?_, ?_, ?_, ?_, ?_⟩
  · exact region_contract_of_shape F hdPhi cut_SRE1 State.SRE1
      (fun s c => { s with SRE1 := c }) _ (fun _ _ => rfl) (fun _ _ => rfl)
      (fun _ _ => rfl)
  · exact region_contract_of_shape F hdPhi cut_SRE2 State.SRE2
      (fun s c => { s with SRE2 := c }) _ (fun _ _ => rfl) (fun _ _ => rfl)
      (fun _ _ => rfl)
  · exact region_contract_of_shape F hdPhi cut_SRI1 State.SRI1
      (fun s c => { s with SRI1 := c }) _ (fun _ _ => rfl) (fun _ _ => rfl)
      (fun _ _ => rfl)
  · exact region_contract_of_shape F hdPhi cut_SRI2 State.SRI2
      (fun s c => { s with SRI2 := c }) _ (fun _ _ => rfl) (fun _ _ => rfl)
      (fun _ _ => rfl)
  · exact region_contract_of_shape F hdPhi cut_SRI3 State.SRI3
      (fun s c => { s with SRI3 := c }) _ (fun _ _ => rfl) (fun _ _ => rfl)
      (fun _ _ => rfl)

/-- Witness of C2 on scenario 2 with weight 5: `MET.pt = 260` lies in the window of
`SRE2`, the call returns true and the counter of `SRE2` goes from `(0, 0)` to
`(5, 25)`. -/
theorem region_predicates_contract_witness :
    (∀ a b, 0 ≤ sample_functions.dPhi a b)
    ∧ (cut_SRE2 sample_functions scenario2_state 5).1 = true
    ∧ (cut_SRE2 sample_functions scenario2_state 5).2.SRE2.count = 5
    ∧ (cut_SRE2 sample_functions scenario2_state 5).2.SRE2.dcount = 25 := by
  have h := (region_predicates_contract sample_functions sample_dPhi_nonneg).2.1
    scenario2_state 5
  have hm : scenario2_state.MET.get "pt" = 260 := by
    simp [scenario2_state, particle, TEParticle.get]
  have ht := h.1.mpr ⟨scenario2_condition, by rw [hm]; norm_num⟩
  refine ⟨sample_dPhi_nonneg, ht, ?_, ?_⟩
  · rw [(h.2.1 ht).1]
    simp [scenario2_state, initial_state]
  · rw [(h.2.1 ht).2]
    simp [scenario2_state, initial_state]
    norm_num

/-- C3: the `tightphotons` builder does not keep the photons of the window
`|eta| < 1.37` or `1.52 < |eta| < 2.37`: a single photon with `|eta| = 1`, which
lies in the window, is dropped and `tightphotons` is empty. -/
theorem tightphotons_drops_window_photon :
    (∀ p ∈ barrel_photon_state.photons,
      p.get "|eta|" < 1.37 ∨ (p.get "|eta|" > 1.52 ∧ p.get "|eta|" < 2.37))
    ∧ barrel_photon_state.photons.length = 1
    ∧ (object_tightphotons barrel_photon_state).tightphotons = [] := by
  refine ⟨?_, rfl, object_tightphotons_nil _⟩
  intro p hp
  simp only [barrel_photon_state, List.mem_singleton] at hp
  subst hp
  left
  simp [particle, TEParticle.get]
  norm_num

/-- C5: for every event, during the six calls of the driver the counter of each
of the six regions, the preselection included, changes at most once; the
counters of `SRE2`, `SRI1`, `SRI2`, `SRI3` and `SRE1` change at most once from
every state of the globals. -/
theorem counters_updated_at_most_once (F : ExternalFunctions) :
    (∀ (ev : Event) (s : State),
      updates State.preselection (selection_states F (before_selections F ev s)) ≤ 1
      ∧ updates State.SRE2 (selection_states F (before_selections F ev s)) ≤ 1
      ∧ updates State.SRI1 (selection_states F (before_selections F ev s)) ≤ 1
      ∧ updates State.SRI2 (selection_states F (before_selections F ev s)) ≤ 1
      ∧ updates State.SRI3 (selection_states F (before_selections F ev s)) ≤ 1
      ∧ updates State.SRE1 (selection_states F (before_selections F ev s)) ≤ 1)
    ∧ (∀ s : State,
      updates State.SRE2 (selection_states F s) ≤ 1
      ∧ updates State.SRI1 (selection_states F s) ≤ 1
      ∧ updates State.SRI2 (selection_states F s) ≤ 1
      ∧ updates State.SRI3 (selection_states F s) ≤ 1
      ∧ updates State.SRE1 (selection_states F s) ≤ 1) := by
  constructor
  · intro ev s
    rw [selection_states_of_nil F _ (before_selections_tightphotons F ev s)]
    simp only [updates_of_constant, zero_le, and_self]
  · intro s
    have k₁ := cut_preselection_keeps F s 1
    have k₂ := cut_SRE2_keeps F (cut_preselection F s 1).2 1
    have k₃ := cut_SRI1_keeps F (cut_SRE2 F (cut_preselection F s 1).2 1).2 1
    have k₄ := cut_SRI2_keeps F (cut_SRI1 F (cut_SRE2 F (cut_preselection F s 1).2 1).2 1).2 1
    have k₅ := cut_SRI3_keeps F
      (cut_SRI2 F (cut_SRI1 F (cut_SRE2 F (cut_preselection F s 1).2 1).2 1).2 1).2 1
    have k₆ := cut_SRE1_keeps F (cut_SRI3 F
      (cut_SRI2 F (cut_SRI1 F (cut_SRE2 F (cut_preselection F s 1).2 1).2 1).2 1).2 1).2 1
    refine ⟨?_, ?_, ?_, ?_, ?_⟩
    · simp only [selection_states, updates, k₁, k₂, k₃, k₄, k₅, k₆, and_self, reduceIte,
        add_zero, zero_add]
      split_ifs <;> simp
    · simp only [selection_states, updates, k₁, k₂, k₃, k₄, k₅, k₆, and_self, reduceIte,
        add_zero, zero_add]
      split_ifs <;> simp
    · simp only [selection_states, updates, k₁, k₂, k₃, k₄, k₅, k₆, and_self, reduceIte,
        add_zero, zero_add]
      split_ifs <;> simp
    · simp only [selection_states, updates, k₁, k₂, k₃, k₄, k₅, k₆, and_self, reduceIte,
        add_zero, zero_add]
      split_ifs <;> simp
    · simp only [selection_states, updates, k₁, k₂, k₃, k₄, k₅, k₆, and_self, reduceIte,
        add_zero, zero_add]
      split_ifs <;> simp

/-- Witness of C5 on a sample event with one raw photon in the barrel, from the
initial globals: the preselection counter changes at most once during the six
calls. -/
theorem counters_updated_at_most_once_witness :
    photon_event.Photon.length = 1
    ∧ updates State.preselection (selection_states sample_functions
        (before_selections sample_functions photon_event initial_state)) ≤ 1 :=
  ⟨rfl, ((counters_updated_at_most_once sample_functions).1 photon_event initial_state).1⟩

/-- C6: for a `dPhi` without negative values, when the preselection condition
holds each of the six calls of the driver adds 1 to `count` and 1 to `dcount`
of the preselection counter, six in total; when the condition fails no call
changes the preselection counter. -/
theorem preselection_counted_per_call (F : ExternalFunctions)
    (hdPhi : ∀ a b, 0 ≤ F.dPhi a b) (s : State) :
    (preselection_condition F s →
      List.Chain' (fun a b : State =>
          b.preselection.count = a.preselection.count + 1
          ∧ b.preselection.dcount = a.preselection.dcount + 1) (selection_states F s)
      ∧ (apply_selections F s).preselection.count = s.preselection.count + 6
      ∧ (apply_selections F s).preselection.dcount = s.preselection.dcount + 6)
    ∧ (¬ preselection_condition F s →
      List.Chain' (fun a b : State => b.preselection = a.preselection)
          (selection_states F s)
      ∧ (apply_selections F s).preselection = s.preselection) := by
  constructor
  · intro h
    have h₁ := (cut_preselection_condition F s 1).mpr h
    have h₂ := (cut_SRE2_condition F _ 1).mpr h₁
    have h₃ := (cut_SRI1_condition F _ 1).mpr h₂
    have h₄ := (cut_SRI2_condition F _ 1).mpr h₃
    have h₅ := (cut_SRI3_condition F _ 1).mpr h₄
    have e₁ := congrArg (fun r => r.2.preselection) (cut_preselection_pass F hdPhi _ 1 h)
    have e₂ := congrArg (fun r => r.2.preselection) (cut_SRE2_pass F hdPhi _ 1 h₁)
    have e₃ := congrArg (fun r => r.2.preselection) (cut_SRI1_pass F hdPhi _ 1 h₂)
    have e₄ := congrArg (fun r => r.2.preselection) (cut_SRI2_pass F hdPhi _ 1 h₃)
    have e₅ := congrArg (fun r => r.2.preselection) (cut_SRI3_pass F hdPhi _ 1 h₄)
    have e₆ := congrArg (fun r => r.2.preselection) (cut_SRE1_pass F hdPhi _ 1 h₅)
    simp only at e₁ e₂ e₃ e₄ e₅ e₆
    refine ⟨?_, ?_, ?_⟩
    · simp only [selection_states, List.chain'_cons, List.chain'_singleton, and_true]
      rw [e₆, e₅, e₄, e₃, e₂, e₁]
      simp
    · simp only [apply_selections]
      rw [e₆, e₅, e₄, e₃, e₂, e₁]
      norm_num
      ring
    · simp only [apply_selections]
      rw [e₆, e₅, e₄, e₃, e₂, e₁]
      norm_num
      ring
  · intro h
    have e₁ := cut_preselection_fail F hdPhi s 1 h
    have e₂ := cut_SRE2_fail F hdPhi s 1 h
    have e₃ := cut_SRI1_fail F hdPhi s 1 h
    have e₄ := cut_SRI2_fail F hdPhi s 1 h
    have e₅ := cut_SRI3_fail F hdPhi s 1 h
    have e₆ := cut_SRE1_fail F hdPhi s 1 h
    simp [selection_states, apply_selections, e₁, e₂, e₃, e₄, e₅, e₆]

/-- Witness of C6 on scenario 2: the preselection counter goes from `(0, 0)` to
`(6, 6)`. -/
theorem preselection_counted_per_call_witness :
    preselection_condition sample_functions scenario2_state
    ∧ (apply_selections sample_functions scenario2_state).preselection.count = 6
    ∧ (apply_selections sample_functions scenario2_state).preselection.dcount = 6 := by
  have h := (preselection_counted_per_call sample_functions sample_dPhi_nonneg
    scenario2_state).1 scenario2_condition
  refine ⟨scenario2_condition, ?_, ?_⟩
  · rw [h.2.1]
    simp [scenario2_state, initial_state]
  · rw [h.2.2]
    simp [scenario2_state, initial_state]

/-- C7: the `cleanjets` builder leaves every attribute of the jets other than
`drje` as it was, and `cleanjets` is, in input order, exactly the jets whose
`dR` to every record of `electrons` is at least 0.2.  When `dR` of a direction
to itself is 0, no record of `cleanjets` has the `(eta, phi)` of an electron,
and a single jet at the `(eta, phi)` of an electron gives an empty
`cleanjets` (scenario 3). -/
theorem cleanjets_contract (F : ExternalFunctions) (s : State) :
    List.Forall₂ (fun p p₁ : TEParticle => ∀ k, k ≠ "drje" → p₁.get k = p.get k)
        s.jets (object_cleanjets F s).jets
    ∧ List.Forall₂ (fun p p₁ : TEParticle => ∀ k, k ≠ "drje" → p₁.get k = p.get k)
        (s.jets.filter (fun p => decide (∀ q ∈ s.electrons,
          F.dR (p.get "eta") (p.get "phi") (q.get "eta") (q.get "phi") ≥ 0.2)))
        (object_cleanjets F s).cleanjets
    ∧ (object_cleanjets F s).cleanjets
        = (object_cleanjets F s).jets.filter (fun p => decide (∀ q ∈ s.electrons,
          F.dR (p.get "eta") (p.get "phi") (q.get "eta") (q.get "phi") ≥ 0.2))
    ∧ ((∀ eta phi, F.dR eta phi eta phi = 0) →
        (∀ p₁ ∈ (object_cleanjets F s).cleanjets, ∀ q ∈ s.electrons,
          ¬ (p₁.get "eta" = q.get "eta" ∧ p₁.get "phi" = q.get "phi"))
        ∧ (∀ j q, s.jets = [j] → q ∈ s.electrons →
            j.get "eta" = q.get "eta" → j.get "phi" = q.get "phi" →
            (object_cleanjets F s).cleanjets = [])) := by
  obtain ⟨h₁, h₂, h₃⟩ :=
    overlap_removal_contract F "drje" 0.2 (by decide) (by decide) s.jets s.electrons
  refine ⟨h₁, h₂, h₃, ?_⟩
  intro hself
  constructor
  · intro p₁ hp₁ q hq hsame
    have hmem : p₁ ∈ (overlap_removal F "drje" 0.2 s.jets s.electrons).2 := hp₁
    rw [h₃, List.mem_filter] at hmem
    have hq₂ := (of_decide_eq_true hmem.2) q hq
    rw [hsame.1, hsame.2, hself] at hq₂
    norm_num at hq₂
  · intro j q hj hq heta hphi
    have hnil : s.jets.filter (fun p => decide (∀ q ∈ s.electrons,
        F.dR (p.get "eta") (p.get "phi") (q.get "eta") (q.get "phi") ≥ 0.2)) = [] := by
      rw [hj, List.filter_cons_of_neg, List.filter_nil]
      intro hall
      have hq₂ := (of_decide_eq_true hall) q hq
      rw [heta, hphi, hself] at hq₂
      norm_num at hq₂
    rw [hnil] at h₂
    exact List.forall₂_nil_left_iff.mp h₂

/-- Witness of C7 on scenario 3: with the sample `dR`, which is 0 from a
direction to itself, the jet at the place of the electron is not in
`cleanjets`. -/
theorem cleanjets_contract_witness :
    (∀ eta phi, sample_functions.dR eta phi eta phi = 0)
    ∧ (object_cleanjets sample_functions scenario3_state).cleanjets = [] := by
  have hself : ∀ eta phi, sample_functions.dR eta phi eta phi = 0 := by
    intro eta phi
    simp [sample_functions]
  exact ⟨hself, ((cleanjets_contract sample_functions scenario3_state).2.2.2 hself).2
    (particle 50 1 1) (particle 30 1 1) rfl (List.mem_singleton.mpr rfl)
    (by simp [particle, TEParticle.get]) (by simp [particle, TEParticle.get])⟩

/-- C8: the `cleanelectrons` builder leaves every attribute of the electrons
other than `drej` as it was and outputs, in input order, exactly the electrons
whose `dR` to every record of `cleanjets` is at least 0.4; the `cleanmuons`
builder does the same for the muons, with the attribute `drmuj`. -/
theorem cleanleptons_contract (F : ExternalFunctions) (s : State) :
    (List.Forall₂ (fun p p₁ : TEParticle => ∀ k, k ≠ "drej" → p₁.get k = p.get k)
        s.electrons (object_cleanelectrons F s).electrons
      ∧ List.Forall₂ (fun p p₁ : TEParticle => ∀ k, k ≠ "drej" → p₁.get k = p.get k)
        (s.electrons.filter (fun p => decide (∀ q ∈ s.cleanjets,
          F.dR (p.get "eta") (p.get "phi") (q.get "eta") (q.get "phi") ≥ 0.4)))
        (object_cleanelectrons F s).cleanelectrons
      ∧ (object_cleanelectrons F s).cleanelectrons
        = (object_cleanelectrons F s).electrons.filter (fun p => decide (∀ q ∈ s.cleanjets,
          F.dR (p.get "eta") (p.get "phi") (q.get "eta") (q.get "phi") ≥ 0.4)))
    ∧ (List.Forall₂ (fun p p₁ : TEParticle => ∀ k, k ≠ "drmuj" → p₁.get k = p.get k)
        s.muons (object_cleanmuons F s).muons
      ∧ List.Forall₂ (fun p p₁ : TEParticle => ∀ k, k ≠ "drmuj" → p₁.get k = p.get k)
        (s.muons.filter (fun p => decide (∀ q ∈ s.cleanjets,
          F.dR (p.get "eta") (p.get "phi") (q.get "eta") (q.get "phi") ≥ 0.4)))
        (object_cleanmuons F s).cleanmuons
      ∧ (object_cleanmuons F s).cleanmuons
        = (object_cleanmuons F s).muons.filter (fun p => decide (∀ q ∈ s.cleanjets,
          F.dR (p.get "eta") (p.get "phi") (q.get "eta") (q.get "phi") ≥ 0.4))) :=
  ⟨overlap_removal_contract F "drej" 0.4 (by decide) (by decide) s.electrons s.cleanjets,
   overlap_removal_contract F "drmuj" 0.4 (by decide) (by decide) s.muons s.cleanjets⟩

/-- Witness of C8 on the sample state with the sample `dR`: the electron at the
place of the clean jet is removed and the one at `(2, 2)` is kept, and the muon
at the place of the clean jet is removed. -/
theorem cleanleptons_contract_witness :
    (object_cleanelectrons sample_functions leptons_sample_state).cleanelectrons.length = 1
    ∧ (object_cleanmuons sample_functions leptons_sample_state).cleanmuons.length = 0 := by
  have h := cleanleptons_contract sample_functions leptons_sample_state
  constructor
  · rw [← h.1.2.1.length_eq]
    simp [leptons_sample_state, initial_state, particle, TEParticle.get, sample_functions,
      List.filter_cons]
    norm_num
  · rw [← h.2.2.1.length_eq]
    simp [leptons_sample_state, initial_state, particle, TEParticle.get, sample_functions,
      List.filter_cons]
    norm_num

/-- C9: for a `dPhi` without negative values, the `jetsSR` builder leaves every
attribute of the clean jets other than `drjp` and `dphijmet` as it was and
outputs, in input order, exactly the clean jets with `pt > 30`, `dR` at least
0.4 to every record of `photons`, and `|dPhi(jet.phi, MET.phi)|` at least
0.4. -/
theorem jetsSR_contract (F : ExternalFunctions) (hdPhi : ∀ a b, 0 ≤ F.dPhi a b)
    (s : State) :
    List.Forall₂ (fun p p₁ : TEParticle =>
          ∀ k, k ≠ "drjp" → k ≠ "dphijmet" → p₁.get k = p.get k)
        s.cleanjets (object_jetsSR F s).cleanjets
    ∧ List.Forall₂ (fun p p₁ : TEParticle =>
          ∀ k, k ≠ "drjp" → k ≠ "dphijmet" → p₁.get k = p.get k)
        (s.cleanjets.filter (fun p => decide (p.get "pt" > 30
          ∧ (∀ q ∈ s.photons,
              F.dR (p.get "eta") (p.get "phi") (q.get "eta") (q.get "phi") ≥ 0.4)
          ∧ |F.dPhi (p.get "phi") (s.MET.get "phi")| ≥ 0.4)))
        (object_jetsSR F s).jetsSR
    ∧ (object_jetsSR F s).jetsSR
        = (object_jetsSR F s).cleanjets.filter (fun p => decide (p.get "pt" > 30
          ∧ (∀ q ∈ s.photons,
              F.dR (p.get "eta") (p.get "phi") (q.get "eta") (q.get "phi") ≥ 0.4)
          ∧ |F.dPhi (p.get "phi") (s.MET.get "phi")| ≥ 0.4)) := by
  have hfilter : (fun p => (jetsSR_body F s.photons s.MET p).2)
      = (fun p => decide (p.get "pt" > 30
          ∧ (∀ q ∈ s.photons,
              F.dR (p.get "eta") (p.get "phi") (q.get "eta") (q.get "phi") ≥ 0.4)
          ∧ |F.dPhi (p.get "phi") (s.MET.get "phi")| ≥ 0.4)) :=
    funext (jetsSR_body_push_eq F hdPhi s.photons s.MET)
  have hrel : ∀ l : List TEParticle,
      List.Forall₂ (fun p p₁ : TEParticle =>
          ∀ k, k ≠ "drjp" → k ≠ "dphijmet" → p₁.get k = p.get k)
        l (l.map (fun p => (jetsSR_body F s.photons s.MET p).1)) := by
    intro l
    rw [List.forall₂_map_right_iff, List.forall₂_same]
    intro x _ k hk₁ hk₂
    exact jetsSR_body_keeps F s.photons s.MET x k hk₁ hk₂
  simp only [object_jetsSR, jetsSR_loop_eq]
  refine ⟨hrel _, ?_, ?_⟩
  · rw [← hfilter]
    exact hrel _
  · simp only [List.filter_map]
    congr 1
    apply List.filter_congr
    intro x _
    simp only [Function.comp]
    rw [jetsSR_body_keeps F s.photons s.MET x "pt" (by decide) (by decide),
      jetsSR_body_keeps F s.photons s.MET x "eta" (by decide) (by decide),
      jetsSR_body_keeps F s.photons s.MET x "phi" (by decide) (by decide)]
    exact jetsSR_body_push_eq F hdPhi s.photons s.MET x

/-- Witness of C9 on the sample state: of the two clean jets only the one with
`pt = 50` passes, so `jetsSR` has one record. -/
theorem jetsSR_contract_witness :
    (∀ a b, 0 ≤ sample_functions.dPhi a b)
    ∧ (object_jetsSR sample_functions jetsSR_sample_state).jetsSR.length = 1 := by
  have h := (jetsSR_contract sample_functions sample_dPhi_nonneg jetsSR_sample_state).2.1
  refine ⟨sample_dPhi_nonneg, ?_⟩
  rw [← h.length_eq]
  simp [jetsSR_sample_state, initial_state, particle, TEParticle.get, sample_functions,
    List.filter_cons]
  norm_num

/-- C10: each baseline builder outputs, in input order, exactly the raw records
that satisfy its two thresholds: photons `pt > 10` and `|eta| < 2.37`, muons
`pt > 6` and `|eta| < 2.7`, jets `pt > 20` and `|eta| < 4.5`, electrons
`pt > 7` and `|eta| < 2.47`. -/
theorem baseline_builders_are_filters (s : State) :
    (object_photons s).photons
        = s.Delphes_Photon.filter
            (fun p => decide (p.get "pt" > 10 ∧ p.get "|eta|" < 2.37))
    ∧ (object_muons s).muons
        = s.Delphes_Muon.filter
            (fun p => decide (p.get "pt" > 6 ∧ p.get "|eta|" < 2.7))
    ∧ (object_jets s).jets
        = s.Delphes_Jet.filter
            (fun p => decide (p.get "pt" > 20 ∧ p.get "|eta|" < 4.5))
    ∧ (object_electrons s).electrons
        = s.Delphes_Electron.filter
            (fun p => decide (p.get "pt" > 7 ∧ p.get "|eta|" < 2.47)) := by
  refine ⟨?_, ?_, ?_, ?_⟩
  · exact foldl_two_guards (fun p : TEParticle => p.get "pt" > 10) (fun p => p.get "|eta|" < 2.37) _
  · exact foldl_two_guards (fun p : TEParticle => p.get "pt" > 6) (fun p => p.get "|eta|" < 2.7) _
  · exact foldl_two_guards (fun p : TEParticle => p.get "pt" > 20) (fun p => p.get "|eta|" < 4.5) _
  · exact foldl_two_guards (fun p : TEParticle => p.get "pt" > 7) (fun p => p.get "|eta|" < 2.47) _

/-- C11: for every event with no raw photons, `photons` and `tightphotons` are
empty before the selections, the six calls of the driver return false, and
none of the six counters changes. -/
theorem photonless_event_changes_nothing (F : ExternalFunctions) (ev : Event) (s : State)
    (h : ev.Photon = []) :
    (before_selections F ev s).photons = []
    ∧ (before_selections F ev s).tightphotons = []
    ∧ selection_results F (before_selections F ev s)
        = [false, false, false, false, false, false]
    ∧ (process_event F ev s).preselection = s.preselection
    ∧ (process_event F ev s).SRE2 = s.SRE2
    ∧ (process_event F ev s).SRI1 = s.SRI1
    ∧ (process_event F ev s).SRI2 = s.SRI2
    ∧ (process_event F ev s).SRI3 = s.SRI3
    ∧ (process_event F ev s).SRE1 = s.SRE1 := by
  have hp : (before_selections F ev s).photons = [] := by
    simp only [before_selections, compute_event_level_variables, create_internal_objects,
      get_external_objects, object_scalarHT, object_photons, object_muons, object_jets,
      object_MET, object_electrons, object_tightphotons, object_cleanjets,
      object_cleanelectrons, object_jetsSR, object_cleanmuons, h, List.foldl_nil]
  have ht : (before_selections F ev s).tightphotons = [] := by
    simp only [before_selections, compute_event_level_variables, create_internal_objects,
      get_external_objects, object_scalarHT, object_photons, object_muons, object_jets,
      object_MET, object_electrons, object_tightphotons, object_cleanjets,
      object_cleanelectrons, object_jetsSR, object_cleanmuons, h, List.foldl_nil]
  have hs := selections_of_nil F (before_selections F ev s) ht
  have r := before_selections_reads F ev s 1
  have hpe : process_event F ev s = before_selections F ev s := hs.2
  rw [hpe]
  exact ⟨hp, ht, hs.1, r.2.2⟩

/-- Witness of C11 on a sample event without photons, from the initial
globals: the six calls return false and the preselection counter stays at
`(0, 0)`. -/
theorem photonless_event_changes_nothing_witness :
    photonless_event.Photon = []
    ∧ selection_results sample_functions
        (before_selections sample_functions photonless_event initial_state)
        = [false, false, false, false, false, false]
    ∧ (process_event sample_functions photonless_event initial_state).preselection
        = initial_state.preselection :=
  ⟨rfl,
   (photonless_event_changes_nothing sample_functions photonless_event initial_state rfl).2.2.1,
   (photonless_event_changes_nothing sample_functions photonless_event initial_state rfl).2.2.2.1⟩

/-- C12: with an empty reference collection each overlap-removal builder
outputs its candidate collection as it is, the same records in the same order,
and leaves the candidate collection itself as it is (no attribute is written):
`cleanjets` for empty `electrons`, `cleanelectrons` and `cleanmuons` for empty
`cleanjets`. -/
theorem empty_reference_passthrough (F : ExternalFunctions) (s : State) :
    (s.electrons = [] →
      (object_cleanjets F s).cleanjets = s.jets ∧ (object_cleanjets F s).jets = s.jets)
    ∧ (s.cleanjets = [] →
      (object_cleanelectrons F s).cleanelectrons = s.electrons
      ∧ (object_cleanelectrons F s).electrons = s.electrons)
    ∧ (s.cleanjets = [] →
      (object_cleanmuons F s).cleanmuons = s.muons
      ∧ (object_cleanmuons F s).muons = s.muons) := by
  refine ⟨fun h => ?_, fun h => ?_, fun h => ?_⟩
  · simp only [object_cleanjets, h, overlap_removal_nil, and_self]
  · simp only [object_cleanelectrons, h, overlap_removal_nil, and_self]
  · simp only [object_cleanmuons, h, overlap_removal_nil, and_self]

/-- Witness of C12 on the initial globals with two jets and no electron:
`cleanjets` is the list of the two jets. -/
theorem empty_reference_passthrough_witness :
    (object_cleanjets sample_functions
        { initial_state with jets := [particle 50 0 0, particle 60 2 2] }).cleanjets
      = [particle 50 0 0, particle 60 2 2] :=
  ((empty_reference_passthrough sample_functions
      { initial_state with jets := [particle 50 0 0, particle 60 2 2] }).1 rfl).1

/-- C13: running the `cleanjets` builder again with `cleanjets` as its `jets`
input and the same `electrons` yields the same `cleanjets`, record for record
with the attached `drje`, and leaves its input as it is. -/
theorem cleanjets_idempotent (F : ExternalFunctions) (s : State) :
    (object_cleanjets F
        { object_cleanjets F s with jets := (object_cleanjets F s).cleanjets }).cleanjets
      = (object_cleanjets F s).cleanjets
    ∧ (object_cleanjets F
        { object_cleanjets F s with jets := (object_cleanjets F s).cleanjets }).jets
      = (object_cleanjets F s).cleanjets := by
  have h := overlap_removal_idem F "drje" 0.2 (by decide) (by decide) s.jets s.electrons
  simp only [object_cleanjets, h, and_self]

/-- C14: each of the six counters is additive (one event adds to `count` and to
`dcount` an increment that is not negative and depends only on the event), and
processing two events in either order gives the same six counters. -/
theorem accumulators_additive (F : ExternalFunctions) :
    additive_counter F State.preselection
    ∧ additive_counter F State.SRE2
    ∧ additive_counter F State.SRI1
    ∧ additive_counter F State.SRI2
    ∧ additive_counter F State.SRI3
    ∧ additive_counter F State.SRE1
    ∧ ∀ (ev₁ ev₂ : Event) (s : State),
        (process_event F ev₂ (process_event F ev₁ s)).preselection
            = (process_event F ev₁ (process_event F ev₂ s)).preselection
        ∧ (process_event F ev₂ (process_event F ev₁ s)).SRE2
            = (process_event F ev₁ (process_event F ev₂ s)).SRE2
        ∧ (process_event F ev₂ (process_event F ev₁ s)).SRI1
            = (process_event F ev₁ (process_event F ev₂ s)).SRI1
        ∧ (process_event F ev₂ (process_event F ev₁ s)).SRI2
            = (process_event F ev₁ (process_event F ev₂ s)).SRI2
        ∧ (process_event F ev₂ (process_event F ev₁ s)).SRI3
            = (process_event F ev₁ (process_event F ev₂ s)).SRI3
        ∧ (process_event F ev₂ (process_event F ev₁ s)).SRE1
            = (process_event F ev₁ (process_event F ev₂ s)).SRE1 := by
  refine ⟨?_, ?_, ?_, ?_, ?_, ?_, ?_⟩
  · refine ⟨fun ev =>
      if (cut_preselection F (before_selections F ev initial_state) 1).1 = true then (6, 6)
      else (0, 0), fun ev s => ?_⟩
    rw [(process_event_summary F ev s).1]
    split_ifs with hc <;> simp [hc]
  · refine ⟨fun ev =>
      if (cut_preselection F (before_selections F ev initial_state) 1).1 = true
          ∧ ((before_selections F ev initial_state).MET.get "pt" > 225
            ∧ (before_selections F ev initial_state).MET.get "pt" < 300) then (1, 1)
      else (0, 0), fun ev s => ?_⟩
    rw [(process_event_summary F ev s).2.1]
    split_ifs with hc <;> simp [hc]
  · refine ⟨fun ev =>
      if (cut_preselection F (before_selections F ev initial_state) 1).1 = true
          ∧ (before_selections F ev initial_state).MET.get "pt" > 150 then (1, 1)
      else (0, 0), fun ev s => ?_⟩
    rw [(process_event_summary F ev s).2.2.1]
    split_ifs with hc <;> simp [hc]
  · refine ⟨fun ev =>
      if (cut_preselection F (before_selections F ev initial_state) 1).1 = true
          ∧ (before_selections F ev initial_state).MET.get "pt" > 225 then (1, 1)
      else (0, 0), fun ev s => ?_⟩
    rw [(process_event_summary F ev s).2.2.2.1]
    split_ifs with hc <;> simp [hc]
  · refine ⟨fun ev =>
      if (cut_preselection F (before_selections F ev initial_state) 1).1 = true
          ∧ (before_selections F ev initial_state).MET.get "pt" > 300 then (1, 1)
      else (0, 0), fun ev s => ?_⟩
    rw [(process_event_summary F ev s).2.2.2.2.1]
    split_ifs with hc <;> simp [hc]
  · refine ⟨fun ev =>
      if (cut_preselection F (before_selections F ev initial_state) 1).1 = true
          ∧ ((before_selections F ev initial_state).MET.get "pt" > 150
            ∧ (before_selections F ev initial_state).MET.get "pt" < 225) then (1, 1)
      else (0, 0), fun ev s => ?_⟩
    rw [(process_event_summary F ev s).2.2.2.2.2]
    split_ifs with hc <;> simp [hc]
  · intro ev₁ ev₂ s
    have a₁ := process_event_summary F ev₁ s
    have a₂ := process_event_summary F ev₂ (process_event F ev₁ s)
    have b₂ := process_event_summary F ev₂ s
    have b₁ := process_event_summary F ev₁ (process_event F ev₂ s)
    refine ⟨?_, ?_, ?_, ?_, ?_, ?_⟩
    · rw [a₂.1, b₁.1, a₁.1, b₂.1]
      split_ifs <;> rfl
    · rw [a₂.2.1, b₁.2.1, a₁.2.1, b₂.2.1]
      split_ifs <;> rfl
    · rw [a₂.2.2.1, b₁.2.2.1, a₁.2.2.1, b₂.2.2.1]
      split_ifs <;> rfl
    · rw [a₂.2.2.2.1, b₁.2.2.2.1, a₁.2.2.2.1, b₂.2.2.2.1]
      split_ifs <;> rfl
    · rw [a₂.2.2.2.2.1, b₁.2.2.2.2.1, a₁.2.2.2.2.1, b₂.2.2.2.2.1]
      split_ifs <;> rfl
    · rw [a₂.2.2.2.2.2, b₁.2.2.2.2.2, a₁.2.2.2.2.2, b₂.2.2.2.2.2]
      split_ifs <;> rfl

/-- C15: for any two prior contents `s` and `t` of the globals and the same
event, the builders and the event-level variable yield the same internal
objects and the six calls of the driver return the same values; the six
counters are the ones the globals held before. -/
theorem no_state_leak (F : ExternalFunctions) (ev : Event) (s t : State) :
    (before_selections F ev s).scalarHT = (before_selections F ev t).scalarHT
    ∧ (before_selections F ev s).photons = (before_selections F ev t).photons
    ∧ (before_selections F ev s).muons = (before_selections F ev t).muons
    ∧ (before_selections F ev s).jets = (before_selections F ev t).jets
    ∧ (before_selections F ev s).MET = (before_selections F ev t).MET
    ∧ (before_selections F ev s).electrons = (before_selections F ev t).electrons
    ∧ (before_selections F ev s).tightphotons = (before_selections F ev t).tightphotons
    ∧ (before_selections F ev s).cleanjets = (before_selections F ev t).cleanjets
    ∧ (before_selections F ev s).cleanelectrons = (before_selections F ev t).cleanelectrons
    ∧ (before_selections F ev s).jetsSR = (before_selections F ev t).jetsSR
    ∧ (before_selections F ev s).cleanmuons = (before_selections F ev t).cleanmuons
    ∧ (before_selections F ev s).METoverSqrtSumET_
        = (before_selections F ev t).METoverSqrtSumET_
    ∧ selection_results F (before_selections F ev s)
        = selection_results F (before_selections F ev t)
    ∧ (before_selections F ev s).preselection = s.preselection
    ∧ (before_selections F ev s).SRE2 = s.SRE2
    ∧ (before_selections F ev s).SRI1 = s.SRI1
    ∧ (before_selections F ev s).SRI2 = s.SRI2
    ∧ (before_selections F ev s).SRI3 = s.SRI3
    ∧ (before_selections F ev s).SRE1 = s.SRE1 := by
  have hs := before_selections_eq F ev s
  have ht := before_selections_eq F ev t
  have rs := before_selections_reads F ev s 1
  have rt := before_selections_reads F ev t 1
  refine ⟨?_, ?_, ?_, ?_, ?_, ?_, ?_, ?_, ?_, ?_, ?_, ?_, ?_, rs.2.2⟩
  case refine_13 =>
    rw [(apply_selections_summary F (before_selections F ev s)).1,
      (apply_selections_summary F (before_selections F ev t)).1, rs.1, rt.1, rs.2.1, rt.2.1]
  all_goals rw [hs, ht]

/-- C16: an event state that passes `cut_SRE1` passes `cut_SRI1`, one that
passes `cut_SRE2` passes `cut_SRI2` and `cut_SRI1`; and when the counter of
`SRI1` (of `SRI2`) is at least that of `SRE1` (of `SRE2`) before a sequence of
events, as it is at the start where all are zero, it is so after it. -/
theorem inclusive_regions_contain_exclusive (F : ExternalFunctions) :
    (∀ (s : State) (w v : ℚ), (cut_SRE1 F s w).1 = true → (cut_SRI1 F s v).1 = true)
    ∧ (∀ (s : State) (w v : ℚ), (cut_SRE2 F s w).1 = true →
        (cut_SRI2 F s v).1 = true ∧ (cut_SRI1 F s v).1 = true)
    ∧ (∀ (evs : List Event) (s : State), s.SRE1.count ≤ s.SRI1.count →
        (event_loop F evs s).SRE1.count ≤ (event_loop F evs s).SRI1.count)
    ∧ (∀ (evs : List Event) (s : State), s.SRE2.count ≤ s.SRI2.count →
        (event_loop F evs s).SRE2.count ≤ (event_loop F evs s).SRI2.count) := by
  refine ⟨?_, ?_, ?_, ?_⟩
  · intro s w v h
    rw [(cut_SRE1_summary F s w).1] at h
    rw [(cut_SRI1_summary F s v).1]
    simp only [Bool.and_eq_true, decide_eq_true_eq] at h ⊢
    exact ⟨h.1, h.2.1⟩
  · intro s w v h
    rw [(cut_SRE2_summary F s w).1] at h
    rw [(cut_SRI2_summary F s v).1, (cut_SRI1_summary F s v).1]
    simp only [Bool.and_eq_true, decide_eq_true_eq] at h ⊢
    refine ⟨⟨h.1, h.2.1⟩, h.1, ?_⟩
    have : (150 : ℚ) < 225 := by norm_num
    exact lt_trans this h.2.1
  · intro evs
    induction evs with
    | nil => intro s h; exact h
    | cons ev rest ih =>
      intro s h
      exact ih (process_event F ev s) ((process_event_inclusive F ev s).1 h)
  · intro evs
    induction evs with
    | nil => intro s h; exact h
    | cons ev rest ih =>
      intro s h
      exact ih (process_event F ev s) ((process_event_inclusive F ev s).2 h)

/-- Witness of C16: on scenario 2 `cut_SRE2` returns true and so do `cut_SRI2`
and `cut_SRI1`; after two sample events from the initial globals the counter of
`SRI1` is at least that of `SRE1`. -/
theorem inclusive_regions_contain_exclusive_witness :
    (cut_SRE2 sample_functions scenario2_state 1).1 = true
    ∧ (cut_SRI2 sample_functions scenario2_state 1).1 = true
    ∧ (cut_SRI1 sample_functions scenario2_state 1).1 = true
    ∧ initial_state.SRE1.count ≤ initial_state.SRI1.count
    ∧ (event_loop sample_functions [photon_event, photonless_event] initial_state).SRE1.count
        ≤ (event_loop sample_functions [photon_event, photonless_event]
            initial_state).SRI1.count := by
  have h := inclusive_regions_contain_exclusive sample_functions
  have h₂ := h.2.1 scenario2_state 1 1 (scenario2_passes_SRE2 1)
  have h₀ : initial_state.SRE1.count ≤ initial_state.SRI1.count := le_refl _
  exact ⟨scenario2_passes_SRE2 1, h₂.1, h₂.2, h₀,
    h.2.2.1 [photon_event, photonless_event] initial_state h₀⟩

/-- C17: the wrapper `_Meff` passes to `Meff` as many zero vectors as there are
jets, not the four-vectors of the jets: the copied range `jets.begin(),
jets.begin()` is empty.  With the effective mass of the specification, one jet
of `pt = 100` and `MET` of `pt = 50` give 50, where the effective mass of the
jet and `MET` is 150. -/
theorem Meff_wrapper_drops_jets :
    (∀ (Meff : List TLorentzVector → TLorentzVector → ℚ) (vec : TEParticle → TLorentzVector)
        (jets : List TEParticle) (MET : TLorentzVector),
        _Meff Meff vec jets MET
          = Meff (List.replicate jets.length TLorentzVector.zero) MET)
    ∧ _Meff Meff_of_spec sample_vec [particle 100 0 0] ⟨50, 0, 0, 0⟩ = 50
    ∧ Meff_of_spec ([particle 100 0 0].map sample_vec) ⟨50, 0, 0, 0⟩ = 150 := by
  refine ⟨?_, ?_, ?_⟩
  · intro Meff vec jets MET
    simp [_Meff, std_copy, iterator_range]
  · simp [_Meff, std_copy, iterator_range, Meff_of_spec, TLorentzVector.zero]
  · simp [Meff_of_spec, sample_vec, particle, TEParticle.get]
    norm_num

/-- C18: in the `cleanjets` builder with a non-empty `electrons`, every jet of
`jets` ends with `drje` written: when no electron is closer than 0.2 it is `dR`
to the last electron, and when some electron is closer than 0.2 it is `dR` to
the first such electron; `cleanjets` is exactly the jets whose final `drje` is
at least 0.2. -/
theorem drje_is_last_separation (F : ExternalFunctions) (s : State)
    (hne : s.electrons ≠ []) :
    List.Forall₂ (fun p p₁ : TEParticle =>
        ((∀ q ∈ s.electrons,
            F.dR (p.get "eta") (p.get "phi") (q.get "eta") (q.get "phi") ≥ 0.2) →
          p₁.get "drje" = F.dR (p.get "eta") (p.get "phi")
            ((s.electrons.getLast hne).get "eta") ((s.electrons.getLast hne).get "phi"))
        ∧ (∀ (pre : List TEParticle) (q : TEParticle) (post : List TEParticle),
            s.electrons = pre ++ q :: post →
            (∀ r ∈ pre,
              F.dR (p.get "eta") (p.get "phi") (r.get "eta") (r.get "phi") ≥ 0.2) →
            F.dR (p.get "eta") (p.get "phi") (q.get "eta") (q.get "phi") < 0.2 →
            p₁.get "drje"
              = F.dR (p.get "eta") (p.get "phi") (q.get "eta") (q.get "phi")))
      s.jets (object_cleanjets F s).jets
    ∧ (object_cleanjets F s).cleanjets
        = (object_cleanjets F s).jets.filter (fun p₁ => decide (p₁.get "drje" ≥ 0.2)) := by
  simp only [object_cleanjets, overlap_removal_eq]
  constructor
  · rw [List.forall₂_map_right_iff, List.forall₂_same]
    intro p _
    constructor
    · intro hall
      exact overlap_scan_attr_last F "drje" 0.2 (by decide) (by decide) s.electrons hne p hall
    · intro pre q post hsplit hpre hq
      rw [hsplit]
      exact overlap_scan_attr_first F "drje" 0.2 (by decide) (by decide) pre q post p hpre hq
  · rw [List.filter_map]
    congr 1
    apply List.filter_congr
    intro p _
    simp only [Function.comp]
    rw [Bool.eq_iff_iff]
    simp only [Bool.not_eq_true', decide_eq_true_eq, ge_iff_le]
    rw [← not_lt, ← overlap_scan_skip_iff_attr F "drje" 0.2 s.electrons hne p]
    simp

/-- Witness of C18 on the sample state: of the two jets only the one away from
both electrons ends with `drje` at least 0.2, so `cleanjets` has one record. -/
theorem drje_is_last_separation_witness :
    cleanjets_sample_state.electrons ≠ []
    ∧ (object_cleanjets sample_functions cleanjets_sample_state).cleanjets
        = (object_cleanjets sample_functions cleanjets_sample_state).jets.filter
            (fun p₁ => decide (p₁.get "drje" ≥ 0.2))
    ∧ (object_cleanjets sample_functions cleanjets_sample_state).cleanjets.length = 1 := by
  have hne : cleanjets_sample_state.electrons ≠ [] := by
    simp [cleanjets_sample_state]
  have h := (drje_is_last_separation sample_functions cleanjets_sample_state hne).2
  refine ⟨hne, h, ?_⟩
  rw [h]
  simp [object_cleanjets, overlap_removal, overlap_scan, cleanjets_sample_state,
    initial_state, particle, TEParticle.get, TEParticle.set, sample_functions,
    List.filter_cons]
  norm_num

/-- C19: the `tightphotons` builder as coded outputs the empty collection for
every input; hence on every event the six calls of the driver return false, a
sequence of events leaves the six counters as they were, and from the initial
globals they all remain `(0, 0)`. -/
theorem tightphotons_always_empty :
    (∀ s : State, (object_tightphotons s).tightphotons = [])
    ∧ (∀ (F : ExternalFunctions) (ev : Event) (s : State),
        selection_results F (before_selections F ev s)
          = [false, false, false, false, false, false])
    ∧ (∀ (F : ExternalFunctions) (evs : List Event) (s : State),
        (event_loop F evs s).preselection = s.preselection
        ∧ (event_loop F evs s).SRE2 = s.SRE2
        ∧ (event_loop F evs s).SRI1 = s.SRI1
        ∧ (event_loop F evs s).SRI2 = s.SRI2
        ∧ (event_loop F evs s).SRI3 = s.SRI3
        ∧ (event_loop F evs s).SRE1 = s.SRE1)
    ∧ (∀ (F : ExternalFunctions) (evs : List Event),
        (event_loop F evs initial_state).preselection = ⟨0, 0⟩
        ∧ (event_loop F evs initial_state).SRE2 = ⟨0, 0⟩
        ∧ (event_loop F evs initial_state).SRI1 = ⟨0, 0⟩
        ∧ (event_loop F evs initial_state).SRI2 = ⟨0, 0⟩
        ∧ (event_loop F evs initial_state).SRI3 = ⟨0, 0⟩
        ∧ (event_loop F evs initial_state).SRE1 = ⟨0, 0⟩) := by
  refine ⟨object_tightphotons_nil, ?_, event_loop_counters, ?_⟩
  · intro F ev s
    exact (selections_of_nil F _ (before_selections_tightphotons F ev s)).1
  · intro F evs
    exact event_loop_counters F evs initial_state

/-- C20: for a `dPhi` without negative values and an event state on which the
preselection condition holds, a call of a region predicate with weight `w`
adds 1 and 1 to the preselection counter, whatever `w` is, and when the window
of the region holds its own counter receives `w` and `w * w`. -/
theorem nested_preselection_ignores_weight (F : ExternalFunctions)
    (hdPhi : ∀ a b, 0 ≤ F.dPhi a b) (s : State) (w : ℚ)
    (h : preselection_condition F s) :
    ((cut_SRE2 F s w).2.preselection
        = ⟨s.preselection.count + 1, s.preselection.dcount + 1⟩
      ∧ (s.MET.get "pt" > 225 ∧ s.MET.get "pt" < 300 →
          (cut_SRE2 F s w).2.SRE2 = ⟨s.SRE2.count + w, s.SRE2.dcount + w * w⟩))
    ∧ ((cut_SRI1 F s w).2.preselection
        = ⟨s.preselection.count + 1, s.preselection.dcount + 1⟩
      ∧ (s.MET.get "pt" > 150 →
          (cut_SRI1 F s w).2.SRI1 = ⟨s.SRI1.count + w, s.SRI1.dcount + w * w⟩))
    ∧ ((cut_SRI2 F s w).2.preselection
        = ⟨s.preselection.count + 1, s.preselection.dcount + 1⟩
      ∧ (s.MET.get "pt" > 225 →
          (cut_SRI2 F s w).2.SRI2 = ⟨s.SRI2.count + w, s.SRI2.dcount + w * w⟩))
    ∧ ((cut_SRI3 F s w).2.preselection
        = ⟨s.preselection.count + 1, s.preselection.dcount + 1⟩
      ∧ (s.MET.get "pt" > 300 →
          (cut_SRI3 F s w).2.SRI3 = ⟨s.SRI3.count + w, s.SRI3.dcount + w * w⟩))
    ∧ ((cut_SRE1 F s w).2.preselection
        = ⟨s.preselection.count + 1, s.preselection.dcount + 1⟩
      ∧ (s.MET.get "pt" > 150 ∧ s.MET.get "pt" < 225 →
          (cut_SRE1 F s w).2.SRE1 = ⟨s.SRE1.count + w, s.SRE1.dcount + w * w⟩)) := by
  have e₁ := cut_SRE2_pass_parts F hdPhi s w h
  have e₂ := cut_SRI1_pass_parts F hdPhi s w h
  have e₃ := cut_SRI2_pass_parts F hdPhi s w h
  have e₄ := cut_SRI3_pass_parts F hdPhi s w h
  have e₅ := cut_SRE1_pass_parts F hdPhi s w h
  refine ⟨⟨e₁.2.1, fun hw => ?_⟩, ⟨e₂.2.1, fun hw => ?_⟩, ⟨e₃.2.1, fun hw => ?_⟩,
    ⟨e₄.2.1, fun hw => ?_⟩, ⟨e₅.2.1, fun hw => ?_⟩⟩
  · rw [e₁.2.2, if_pos hw]
  · rw [e₂.2.2, if_pos hw]
  · rw [e₃.2.2, if_pos hw]
  · rw [e₄.2.2, if_pos hw]
  · rw [e₅.2.2, if_pos hw]

/-- Witness of C20 on scenario 2 with weight 5: after `cut_SRE2(5)` the
preselection counter is `(1, 1)` and the counter of `SRE2` is `(5, 25)`. -/
theorem nested_preselection_ignores_weight_witness :
    (∀ a b, 0 ≤ sample_functions.dPhi a b)
    ∧ preselection_condition sample_functions scenario2_state
    ∧ (cut_SRE2 sample_functions scenario2_state 5).2.preselection = ⟨1, 1⟩
    ∧ (cut_SRE2 sample_functions scenario2_state 5).2.SRE2 = ⟨5, 25⟩ := by
  have h := (nested_preselection_ignores_weight sample_functions sample_dPhi_nonneg
    scenario2_state 5 scenario2_condition).1
  have hw : scenario2_state.MET.get "pt" > 225 ∧ scenario2_state.MET.get "pt" < 300 := by
    rw [scenario2_MET_pt]
    norm_num
  refine ⟨sample_dPhi_nonneg, scenario2_condition, ?_, ?_⟩
  · rw [h.1]
    simp [scenario2_state, initial_state]
  · rw [h.2 hw]
    simp [scenario2_state, initial_state]
    norm_num

end Lhada
